import Mathlib

/-!
# InventoryReconciliation — verification of the Transaction Workflow Engine

Shallow embedding of the parts of the repository that the claims concern:

* `src/openai_parser.py` — `_clean_parsed_data`, `_validate_completeness`,
  `_validate_date`, `_validate_amounts`, `_calculate_confidence`
  (the Completeness Gate and extraction-response cleaning);
* `src/airtable_client.py` — `process_transaction`, `_process_item_inventory`,
  `_find_or_create_inventory_item`, `_generate_sku` (the SKU Resolver and
  Ledger Updater);
* `src/zoho_client.py` — the purchase/sale posting workflows, the
  compensation routines `_cleanup_failed_purchase` / `_cleanup_failed_sale`,
  and the `is_available` backend-availability flag;
* `main.py` — `_process_complete_transaction` and `_process_pending_reviews`.

Python dict payloads are modelled by the `PyVal` type below; external
libraries (`dateutil`, `hashlib.md5`) are modelled as function parameters.
-/

namespace InvRec

/-- A Python/JSON value as produced by `json.loads` on the model output and
passed around the parser.  `bool` is kept separate from `num` but note that in
Python `bool` is a subtype of `int`, which the embedding mirrors where the
source does arithmetic or comparisons on values. -/
inductive PyVal where
  | none : PyVal
  | bool (b : Bool) : PyVal
  | num (q : ℚ) : PyVal
  | str (s : String) : PyVal
  | list (l : List PyVal) : PyVal
  | dict (d : List (String × PyVal)) : PyVal
deriving Repr

/-- A Python dict, as an insertion-ordered association list (Python dicts have
unique keys; theorems that need uniqueness assume `Nodup` on the keys). -/
abbrev PyDict := List (String × PyVal)

/-- Python truthiness (`if value:`). -/
def PyVal.truthy : PyVal → Bool
  | .none => false
  | .bool b => b
  | .num q => q ≠ 0
  | .str s => s ≠ ""
  | .list l => !l.isEmpty
  | .dict d => !d.isEmpty

/-- `d.get(k)` without a default: `Option.none` when the key is absent. -/
def pget (d : PyDict) (k : String) : Option PyVal :=
  (d.find? (fun p => p.1 == k)).map (·.2)

/-- `d.get(k)` with default `None` (how the parser reads optional fields). -/
def pgetD (d : PyDict) (k : String) : PyVal :=
  (pget d k).getD .none

/-- `d[k] = v`: replace in place when the key exists, append otherwise
(Python dict assignment preserves the position of an existing key; Python dict
keys are unique, so updating the first occurrence is faithful). -/
def pset (d : PyDict) (k : String) (v : PyVal) : PyDict :=
  match d with
  | [] => [(k, v)]
  | p :: rest => if p.1 == k then (p.1, v) :: rest else p :: pset rest k v

/-- Python `str.strip()`: drop whitespace at both ends (list-based, so it is
kernel-computable; Python also strips a few more Unicode space characters,
which never occur in the inputs considered here). -/
def pyStrip (s : String) : String :=
  String.mk ((s.toList.dropWhile Char.isWhitespace).reverse.dropWhile
    Char.isWhitespace).reverse

/-- Python `str.lower()` (ASCII case mapping, as `Char.toLower`). -/
def pyLower (s : String) : String := String.mk (s.toList.map Char.toLower)

/-- Python `str.upper()` (ASCII case mapping, as `Char.toUpper`). -/
def pyUpper (s : String) : String := String.mk (s.toList.map Char.toUpper)

/-- `s[:n]`. -/
def pyTake (s : String) (n : Nat) : String := String.mk (s.toList.take n)

/-- The placeholder strings `_clean_parsed_data` discards (compared after
`.strip().lower()`). -/
def placeholderStrings : List String := ["null", "none", "n/a", "unknown"]

mutual

/-- `EmailParser._clean_parsed_data` (`openai_parser.py` lines 291-320).
Walks the dict in insertion order; an entry is dropped when its value is
`None`, the exact empty string, a placeholder string, a negative number, or a
list/nested-dict that cleans to empty.  String values are stripped; `bool`
values are `int`s in Python and always pass the `value >= 0` test; dict values
that are not inside a list are kept untouched (the final `else`). -/
def cleanParsedData : PyDict → PyDict
  | [] => []
  | (k, v) :: rest =>
    (match v with
      -- `if value is not None and value != "":`
      | .none => []
      | .str s =>
        -- `value = value.strip()`; placeholder strings become None (dropped)
        if s = "" then []
        else if (pyLower (pyStrip s) ∈ placeholderStrings) then []
        else [(k, .str (pyStrip s))]
      | .list l =>
        -- `cleaned_list` is kept only when non-empty
        let cl := cleanListItems l
        if cl.isEmpty then [] else [(k, .list cl)]
      | .bool b => [(k, .bool b)]           -- bool is an int; b >= 0 always
      | .num q => if 0 ≤ q then [(k, .num q)] else []
      | .dict d => [(k, .dict d)]           -- final `else`: kept as-is
      ) ++ cleanParsedData rest

/-- The inner loop of `_clean_parsed_data` over a list value: dict elements
are cleaned recursively and kept when non-empty; other elements are kept when
not `None` and not the empty string. -/
def cleanListItems : List PyVal → List PyVal
  | [] => []
  | item :: rest =>
    (match item with
      | .dict d =>
        let cd := cleanParsedData d
        if cd.isEmpty then [] else [PyVal.dict cd]
      | .none => []
      | .str s => if s = "" then [] else [PyVal.str s]
      | other => [other]) ++ cleanListItems rest

end

/-! ## Completeness Gate (`openai_parser.py`, `_validate_completeness` and helpers) -/

/-- `ParseStatus` enum (`openai_parser.py` lines 16-24). -/
inductive ParseStatus where
  | success | incomplete | partial_ | failed | unknown_type
  | validation_error | api_error
deriving DecidableEq, Repr

/-- `DataCompleteness` enum (`openai_parser.py` lines 27-31). -/
inductive DataCompleteness where
  | complete | incomplete | invalid
deriving DecidableEq, Repr

/-- The `completeness_tracker` dict of `_validate_completeness`; the two item
lists are kept as the count of incomplete items (the only use the source makes
of them afterwards is `len(completeness_tracker['items_incomplete'])`). -/
structure Tracker where
  has_date : Bool := false
  has_vendor_or_channel : Bool := false
  has_all_items : Bool := false
  has_taxes : Bool := false
  items_incomplete : Nat := 0
deriving DecidableEq, Repr

/-- The fields of the `ParseResult` dataclass that the gate populates
(`incomplete_items` kept as a count; `parse_time`/`completeness_details`
bookkeeping omitted). -/
structure ParseResultL where
  status : ParseStatus
  data : PyDict
  errors : List String := []
  warnings : List String := []
  missing_fields : List String := []
  incomplete_items : Nat := 0
  confidence_score : ℚ := 0
  requires_review : Bool := false
  completeness : DataCompleteness := .invalid
deriving Repr

/-- `v == some_string` for a Python value (string equality; any non-string
value compares unequal to a string, as in Python). -/
def isStr (v : PyVal) (s : String) : Bool :=
  match v with
  | .str t => t == s
  | _ => false

/-- `v is None`. -/
def isNone : PyVal → Bool
  | .none => true
  | _ => false

/-- How a value renders inside an f-string (only the string case is ever
user-visible in the warnings the theorems below count; other cases render as
Python `repr`-style text, abbreviated here). -/
def pyValFStr : PyVal → String
  | .str s => s
  | .num q => toString q
  | .bool b => cond b "True" "False"
  | .none => "None"
  | _ => "<object>"

/-- The regex `^\d{4}-\d{2}-\d{2}$` of `VALIDATION_PATTERNS['date']`
(`re.match` also tolerates one trailing newline before `$`; that corner is
irrelevant to every input considered here). -/
def isoDateMatch (s : String) : Bool :=
  match s.toList with
  | [a, b, c, d, h1, e, f, h2, g, h] =>
    a.isDigit && b.isDigit && c.isDigit && d.isDigit && h1 == '-' &&
    e.isDigit && f.isDigit && h2 == '-' && g.isDigit && h.isDigit
  | _ => false

/-- `EmailParser._validate_date` (`openai_parser.py` lines 488-503).
`parseDate` models `dateutil.parser.parse` composed with
`strftime("%Y-%m-%d")`: `some` when dateutil can parse the string, `none` when
it raises.  Returns the (possibly mutated) data together with the warnings and
missing-field tags it appends.  Only called on a truthy date; a truthy
non-string date would raise `TypeError` at `re.match` in Python, so theorems
restrict dates to strings. -/
def validateDate (parseDate : String → Option String) (data : PyDict) :
    PyDict × List String × List String :=
  match pgetD data "date" with
  | .str s =>
    if s = "" then (data, [], [])
    else if isoDateMatch s then (data, [], [])
    else
      match parseDate s with
      | some d =>
        (pset data "date" (.str d), [s!"Date reformatted from {s}"], [])
      | Option.none =>
        (pset (pset data "date_original" (.str s)) "date" .none,
         [s!"Invalid date format: {s}"], ["date"])
  | _ => (data, [], [])

/-- `item.get('quantity') is not None and item.get('quantity') > 0`.
`True > 0` holds in Python (bool is int); a string quantity would raise
`TypeError`, so theorems restrict quantities to numbers/bools/None. -/
def checkQuantity : PyVal → Bool
  | .num q => 0 < q
  | .bool b => b
  | _ => false

/-- `item.get(price_field) is not None and item.get(price_field) >= 0`
(same typing caveat as `checkQuantity`). -/
def checkPrice : PyVal → Bool
  | .num q => 0 ≤ q
  | .bool _ => true
  | _ => false

/-- `item` as a dict (`item.get(...)`); a non-dict element of `items` would
raise `AttributeError` in Python, so theorems restrict items to dicts. -/
def asDict : PyVal → PyDict
  | .dict d => d
  | _ => []

/-- Accumulated output of the per-item loop of `_validate_completeness`
(lines 398-447). -/
structure ItemsScan where
  missing : List String := []
  warnings : List String := []
  all_complete : Bool := true
  incomplete : Nat := 0
deriving Repr

/-- The per-item loop of `_validate_completeness` (lines 398-447), scanning
item `i` (0-based; tags use `i+1`) onwards.  `ItemCompleteness.is_complete`
is `has_name and has_quantity and has_unit_price` (the SKU check only raises
a warning). -/
def scanItems (priceField : String) : Nat → List PyVal → ItemsScan
  | _, [] => {}
  | i, item :: rest =>
    let d := asDict item
    let nameOk := (pgetD d "name").truthy
    let qtyOk := checkQuantity (pgetD d "quantity")
    let priceOk := checkPrice (pgetD d priceField)
    let skuOk := (pgetD d "sku").truthy || (pgetD d "upc").truthy ||
      (pgetD d "product_id").truthy
    let m := (if nameOk then [] else [s!"item_{i+1}_name"]) ++
      (if qtyOk then [] else [s!"item_{i+1}_quantity"]) ++
      (if priceOk then [] else [s!"item_{i+1}_{priceField}"])
    let w := if skuOk then [] else [s!"Item {i+1}: Missing SKU/identifier"]
    let complete := nameOk && qtyOk && priceOk
    let tl := scanItems priceField (i+1) rest
    { missing := m ++ tl.missing
      warnings := w ++ tl.warnings
      all_complete := complete && tl.all_complete
      incomplete := (if complete then 0 else 1) + tl.incomplete }

/-- `data.get(k, 0) or 0` as used by `_validate_amounts` on numeric payloads
(falsy values become 0; a truthy non-numeric value would raise `TypeError`
in the additions that follow, so theorems restrict amounts to
numbers/bools/None). -/
def amtRead (data : PyDict) (k : String) : ℚ :=
  match pgetD data k with
  | .num q => q
  | .bool b => cond b 1 0
  | _ => 0

/-- The amount fields the coercion loop of `_validate_amounts` touches. -/
def amountFields : List String := ["subtotal", "taxes", "shipping", "fees", "total"]

/-- The per-field `float(...)` coercion of `_validate_amounts` lines 528-534.
Numbers and bools convert; a non-convertible value yields a warning and 0.0.
(Python additionally parses numeric strings; no theorem below evaluates the
gate on string-valued amount fields.) -/
def coerceAmounts : PyDict → List String → PyDict × List String
  | data, [] => (data, [])
  | data, f :: rest =>
    match pget data f with
    | Option.none => coerceAmounts data rest
    | some (.num q) =>
      let (d, w) := coerceAmounts (pset data f (.num q)) rest
      (d, w)
    | some (.bool b) =>
      let (d, w) := coerceAmounts (pset data f (.num (cond b 1 0))) rest
      (d, w)
    | some _ =>
      let (d, w) := coerceAmounts (pset data f (.num 0)) rest
      (d, s!"Invalid amount for {f}" :: w)

/-- `EmailParser._validate_amounts` (`openai_parser.py` lines 505-534):
total-mismatch check then float coercion; returns the mutated data and the
warnings appended. -/
def validateAmounts (isPurchase : Bool) (data : PyDict) :
    PyDict × List String :=
  let subtotal := amtRead data "subtotal"
  let taxes := amtRead data "taxes"
  let shipping := amtRead data "shipping"
  let fees := amtRead data "fees"
  let total := amtRead data "total"
  let calcTotal := if isPurchase then subtotal + taxes + shipping
    else subtotal + taxes - fees + shipping
  let (data1, w1) :=
    if 0 < total ∧ (1 : ℚ)/10 < |calcTotal - total| then
      (pset (pset data "total_calculated" (.num calcTotal)) "total_mismatch" (.bool true),
       [s!"Total mismatch: calculated {calcTotal} vs stated {total}"])
    else (data, [])
  let (data2, w2) := coerceAmounts data1 amountFields
  (data2, w1 ++ w2)

/-- `EmailParser._calculate_confidence` (`openai_parser.py` lines 536-559).
`itemsLen` is `len(data.get('items', []))`, `numWarnings` is
`len(result.warnings)` at the call site. -/
def calcConfidence (itemsLen : Nat) (t : Tracker) (numWarnings : Nat)
    (completeness : DataCompleteness) : ℚ :=
  let s1 : ℚ := 1
  let s2 := if t.has_date then s1 else s1 - 0.2
  let s3 := if t.has_vendor_or_channel then s2 else s2 - 0.2
  let s4 := if t.has_taxes then s3 else s3 - 0.15
  let s5 := if t.has_all_items then s4
    else s4 - 0.3 * ((t.items_incomplete : ℚ) / (max 1 itemsLen : ℕ))
  let s6 := s5 - (numWarnings : ℚ) * 0.02
  let s7 := if completeness = .complete then min (s6 + 0.1) 1 else s6
  max 0 (min 1 s7)

/-- `EmailParser._validate_completeness` (`openai_parser.py` lines 322-486),
the Completeness Gate.  `parseDate` models `dateutil` (see `validateDate`).
The `parse_metadata` attached to the data at the end (lines 476-484) only
echoes fields already present on the result and is omitted. -/
def validateCompleteness (parseDate : String → Option String) (data : PyDict) :
    ParseResultL :=
  let tt := pgetD data "type"
  if !tt.truthy then
    { status := .unknown_type, data,
      errors := ["Transaction type not identified"], completeness := .invalid }
  else if (!(isStr tt "purchase" || isStr tt "sale")) && isStr tt "unknown" then
    { status := .unknown_type, data, completeness := .invalid }
  else
    let warn0 : List String :=
      if isStr tt "purchase" || isStr tt "sale" then []
      else [s!"Unexpected transaction type: {pyValFStr tt}"]
    -- date (lines 366-370)
    let hasDate := (pgetD data "date").truthy
    let data1 := if hasDate then (validateDate parseDate data).1 else data
    let dWarn := if hasDate then (validateDate parseDate data).2.1 else []
    let dMiss := if hasDate then (validateDate parseDate data).2.2 else ["date"]
    -- vendor / channel (lines 373-382)
    let isPurchase := isStr tt "purchase"
    let hasVoc :=
      if isPurchase then (pgetD data1 "vendor_name").truthy
      else (pgetD data1 "channel").truthy
    let vocMiss : List String :=
      if hasVoc then [] else if isPurchase then ["vendor_name"] else ["channel"]
    -- taxes (lines 385-389)
    let hasTaxes := !isNone (pgetD data1 "taxes")
    let taxMiss : List String := if hasTaxes then [] else ["taxes"]
    let taxWarn : List String :=
      if hasTaxes then [] else ["Tax must be captured as a separate field"]
    -- items (lines 392-447); a truthy non-list `items` value would raise in
    -- Python, so theorems restrict `items` to lists (or absent)
    let items : List PyVal :=
      match pgetD data1 "items" with
      | .list l => l
      | _ => []
    let priceField := if isPurchase then "unit_price" else "sale_price"
    let itemErr : List String := if items.isEmpty then ["No items found"] else []
    let itemMiss : List String := if items.isEmpty then ["items"] else []
    let scan := if items.isEmpty then ({ all_complete := false } : ItemsScan)
      else scanItems priceField 0 items
    let hasAllItems := !items.isEmpty && scan.all_complete
    -- amounts (line 450)
    let data2 := (validateAmounts isPurchase data1).1
    let aWarn := (validateAmounts isPurchase data1).2
    let tracker : Tracker :=
      { has_date := hasDate, has_vendor_or_channel := hasVoc,
        has_all_items := hasAllItems, has_taxes := hasTaxes,
        items_incomplete := scan.incomplete }
    -- overall completeness (lines 453-467)
    let isComplete := hasDate && hasVoc && hasAllItems && hasTaxes
    let completeness := if isComplete then DataCompleteness.complete
      else DataCompleteness.incomplete
    let status := if isComplete then ParseStatus.success else ParseStatus.incomplete
    let warnings := warn0 ++ dWarn ++ taxWarn ++ scan.warnings ++ aWarn
    let missing := dMiss ++ vocMiss ++ taxMiss ++ itemMiss ++ scan.missing
    { status, data := data2, errors := itemErr, warnings,
      missing_fields := missing, incomplete_items := scan.incomplete,
      confidence_score := calcConfidence items.length tracker warnings.length completeness,
      requires_review := !isComplete, completeness }

/-! ## Well-formed gate inputs

The Python gate raises `TypeError`/`AttributeError` on some ill-typed inputs
(string compared to a number, non-dict line item, truthy non-list `items`,
truthy non-string date).  The predicates below carve out the inputs the
Python code actually processes; the gate theorems are stated under them. -/

/-- Amount-like value: number, bool or `None` (absent is handled at `pget`). -/
def wfNumOpt : PyVal → Bool
  | .none => true
  | .bool _ => true
  | .num _ => true
  | _ => false

/-- An amount field is absent or a number/bool/`None`. -/
def wfAmountField (data : PyDict) (k : String) : Bool :=
  match pget data k with
  | Option.none => true
  | some v => wfNumOpt v

/-- A line item the Python loop processes without raising: a dict whose
quantity and price fields are numbers/bools/`None`/absent. -/
def wfItem : PyVal → Bool
  | .dict d =>
    wfNumOpt (pgetD d "quantity") && wfNumOpt (pgetD d "unit_price") &&
    wfNumOpt (pgetD d "sale_price")
  | _ => false

/-- Gate inputs the theorems below quantify over: the transaction type is
`purchase` or `sale` (the case the claims concern), the date is a string or
falsy, `items` is a list of processable dicts or falsy, and the amount fields
are numeric/bool/`None`/absent. -/
def wfGateInput (data : PyDict) : Bool :=
  (isStr (pgetD data "type") "purchase" || isStr (pgetD data "type") "sale") &&
  (match pgetD data "date" with
   | .str _ => true
   | v => !v.truthy) &&
  (match pgetD data "items" with
   | .list l => l.all wfItem
   | v => !v.truthy) &&
  amountFields.all (wfAmountField data)

/-- The date field, when a string, is empty (falsy), already `YYYY-MM-DD`, or
parseable by `dateutil`: exactly the situations in which `_validate_date`
does not null the date out. -/
def dateParseable (parseDate : String → Option String) (data : PyDict) : Bool :=
  match pgetD data "date" with
  | .str s => (s == "") || isoDateMatch s || (parseDate s).isSome
  | _ => true

/-! ## Spec-side confidence formulas (for claim C9)

`c9ClaimFormula` is modelled from the claim's words (zero-warnings bonus) to
be compared against the code; `c9AmendedFormula` states the corrected
description (bonus when completeness is Complete). -/

/-- The additive deduction shared by both formulas, with the code's weights:
0.2 for a missing date, 0.2 for a missing vendor/channel, 0.15 for missing
taxes, 0.3 scaled by the incomplete-item fraction, 0.02 per warning. -/
def confDeductions (itemsLen : Nat) (t : Tracker) (numWarnings : Nat) : ℚ :=
  (if t.has_date then 0 else 0.2) +
  (if t.has_vendor_or_channel then 0 else 0.2) +
  (if t.has_taxes then 0 else 0.15) +
  (if t.has_all_items then 0
    else 0.3 * ((t.items_incomplete : ℚ) / (max 1 itemsLen : ℕ))) +
  (numWarnings : ℚ) * 0.02

/-- Modelled from the claim: additive weighted deduction, floor 0, ceiling 1,
and a small bonus (0.1) added when the result has zero warnings. -/
def c9ClaimFormula (itemsLen : Nat) (t : Tracker) (numWarnings : Nat) : ℚ :=
  max 0 (min 1 (1 - confDeductions itemsLen t numWarnings +
    (if numWarnings = 0 then 0.1 else 0)))

/-- The amended description: same additive deduction, floor 0, ceiling 1, but
the 0.1 bonus (capped at 1) is applied when the completeness verdict is
`Complete` — irrespective of the warning count. -/
def c9AmendedFormula (itemsLen : Nat) (t : Tracker) (numWarnings : Nat)
    (c : DataCompleteness) : ℚ :=
  let raw := 1 - confDeductions itemsLen t numWarnings
  max 0 (min 1 (if c = .complete then min (raw + 0.1) 1 else raw))

/-! ## Invariant satisfied by cleaned extraction data (claim C10) -/

mutual

/-- Property of each value in a dict produced by `_clean_parsed_data`:
never `None`, never a placeholder string (case-insensitively), never a
negative number; list values are non-empty and their elements satisfy
`CleanElemOK`.  Note: the empty string is *not* excluded (a whitespace-only
input string is stripped to `""` and kept), and dict values outside lists
pass through unexamined — both per the source. -/
def CleanEntryOK : PyVal → Prop
  | .none => False
  | .bool _ => True
  | .num q => 0 ≤ q
  | .str s => pyLower s ∉ placeholderStrings
  | .list l => l ≠ [] ∧ CleanElemsOK l
  | .dict _ => True

/-- All elements of a cleaned list value are acceptable. -/
def CleanElemsOK : List PyVal → Prop
  | [] => True
  | e :: rest => CleanElemOK e ∧ CleanElemsOK rest

/-- A cleaned list element: not `None`, not the empty string; a dict element
is non-empty and recursively cleaned; other elements pass through. -/
def CleanElemOK : PyVal → Prop
  | .none => False
  | .str s => s ≠ ""
  | .dict d => d ≠ [] ∧ CleanEntriesOK d
  | _ => True

/-- All entries of a cleaned dict are acceptable. -/
def CleanEntriesOK : PyDict → Prop
  | [] => True
  | (_, v) :: rest => CleanEntryOK v ∧ CleanEntriesOK rest

end

/-! ## Ledger Updater (`airtable_client.py`, `_process_item_inventory`) -/

/-- Lines 169-171: `quantity_change = item.get('quantity', 0)`, negated for a
sale (sales reduce inventory). -/
def quantityDelta (transaction_type : String) (quantity : ℤ) : ℤ :=
  if transaction_type == "sale" then -quantity else quantity

/-- Line 173: `new_quantity = max(0, result['previous_quantity'] +
quantity_change)` — the value written back to the inventory record. -/
def newQuantity (previous delta : ℤ) : ℤ := max 0 (previous + delta)

/-- The stored quantity after a sequence of applied deltas (each transaction
reads the current quantity and writes `newQuantity`). -/
def applyDeltas (init : ℤ) (deltas : List ℤ) : ℤ := deltas.foldl newQuantity init

/-! ## Transaction processing with per-item isolation
(`airtable_client.py`, `process_transaction`, lines 36-131) -/

/-- Outcome of `_process_item_inventory` for one item, supplied as a
parameter (the call performs HTTP I/O): `ok` carries the resolved SKU and
inventory record id; `failed` is an unsuccessful result dict with its
`errors`; `exn` is a raised exception. -/
inductive ItemOutcome where
  | ok (sku : String) (recordId : String)
  | failed (errors : List String)
  | exn (msg : String)
deriving Repr

/-- An entry of `result['items_processed']`. -/
structure ItemProcessedEntry where
  name : PyVal
  sku : String
  quantity : PyVal
  inventory_record_id : String
deriving Repr

/-- An entry of `result['items_failed']`. -/
structure FailedItem where
  name : PyVal
  errors : List String
deriving Repr

/-- The result dict of `process_transaction`.  `create_call` makes the
invocation of `create_purchase` / `create_sale` observable: `some items`
records the `clean_data['items']` (each item dict with its SKU filled in)
passed to the record-creation call. -/
structure TxnResult where
  success : Bool := false
  transaction_record_id : Option String := Option.none
  items_processed : List ItemProcessedEntry := []
  items_failed : List FailedItem := []
  errors : List String := []
  warnings : List String := []
  create_call : Option (List PyDict) := Option.none
deriving Repr

/-- The per-item loop of `process_transaction` (lines 63-103): returns
`(processed_items, items_processed, items_failed, warnings)`.  Outcomes are
consumed positionally (one per item). -/
def ptLoop : List PyDict → List ItemOutcome →
    List PyDict × List ItemProcessedEntry × List FailedItem × List String
  | [], _ => ([], [], [], [])
  | _, [] => ([], [], [], [])
  | item :: its, oc :: ocs =>
    let (ps, pe, fe, ws) := ptLoop its ocs
    match oc with
    | .ok sku rid =>
      (pset item "sku" (.str sku) :: ps,
       { name := pgetD item "name", sku := sku,
         quantity := pgetD item "quantity",
         inventory_record_id := rid } :: pe, fe, ws)
    | .failed errs =>
      (ps, pe, { name := pgetD item "name", errors := errs } :: fe, errs ++ ws)
    | .exn m =>
      let nm := pyValFStr (pgetD item "name")
      let msg := s!"Failed to process item {nm}: {m}"
      (ps, pe, { name := pgetD item "name", errors := [msg] } :: fe, msg :: ws)

/-- `AirtableClient.process_transaction` (lines 36-131) restricted to the
fields the claim concerns.  `createOutcome` models the
`create_purchase`/`create_sale` HTTP call (its id on success, the re-raised
exception message on failure); it is only consulted when at least one item
was processed (`if processed_items:`). -/
def processTransaction (items : List PyDict) (outcomes : List ItemOutcome)
    (createOutcome : Except String String) : TxnResult :=
  let (ps, pe, fe, ws) := ptLoop items outcomes
  if ps.isEmpty then
    { errors := ["No items could be processed successfully"],
      items_processed := pe, items_failed := fe, warnings := ws }
  else
    match createOutcome with
    | .ok rid =>
      { success := true, transaction_record_id := some rid,
        items_processed := pe, items_failed := fe, warnings := ws,
        create_call := some ps }
    | .error e =>
      { errors := [s!"Transaction processing error: {e}"],
        items_processed := pe, items_failed := fe, warnings := ws,
        create_call := some ps }

/-- Whether an outcome succeeded. -/
def ItemOutcome.isOk : ItemOutcome → Bool
  | .ok _ _ => true
  | _ => false

/-- Spec-side description of the successful subset: the items whose
resolution succeeded, each with its SKU filled in, in order. -/
def successfulSubset (items : List PyDict) (outcomes : List ItemOutcome) :
    List PyDict :=
  (items.zip outcomes).filterMap fun p =>
    match p.2 with
    | .ok sku _ => some (pset p.1 "sku" (.str sku))
    | _ => Option.none

/-! ## Posting workflows and compensation (`zoho_client.py`) -/

/-- The accounting artifacts created/deleted by the posting workflows. -/
inductive Artifact where
  | purchaseOrder | bill | salesOrder | invoice | shipment
deriving DecidableEq, Repr

/-- A DELETE call: the artifact kind and its id. -/
abbrev ZDelete := Artifact × String

/-- The `try:` block of `_cleanup_failed_sale` / `_cleanup_failed_purchase`
(lines 787-815): issue the DELETE calls in order; each attempted call is
recorded; a raising call (modelled by `deleteOk d = false`) is caught by the
single surrounding `except`, so the remaining deletes are skipped. -/
def attemptDeletes (deleteOk : ZDelete → Bool) : List ZDelete → List ZDelete
  | [] => []
  | d :: rest => if deleteOk d then d :: attemptDeletes deleteOk rest else [d]

/-- The deletes `_cleanup_failed_sale` issues, in source order (shipment,
then invoice, then sales order — strict reverse creation order), for the ids
that are present. -/
def plannedSaleDeletes (soId : String) (invoiceId shipmentId : Option String) :
    List ZDelete :=
  (shipmentId.map fun i => ((Artifact.shipment, i) : ZDelete)).toList ++
  (invoiceId.map fun i => ((Artifact.invoice, i) : ZDelete)).toList ++
  [(Artifact.salesOrder, soId)]

/-- `ZohoClient._cleanup_failed_sale` (lines 800-815): returns the DELETE
calls attempted. -/
def cleanupFailedSale (soId : String) (invoiceId shipmentId : Option String)
    (deleteOk : ZDelete → Bool) : List ZDelete :=
  attemptDeletes deleteOk (plannedSaleDeletes soId invoiceId shipmentId)

/-- The deletes `_cleanup_failed_purchase` issues, in source order (bill then
purchase order). -/
def plannedPurchaseDeletes (poId : String) (billId : Option String) :
    List ZDelete :=
  (billId.map fun i => ((Artifact.bill, i) : ZDelete)).toList ++
  [(Artifact.purchaseOrder, poId)]

/-- `ZohoClient._cleanup_failed_purchase` (lines 787-798). -/
def cleanupFailedPurchase (poId : String) (billId : Option String)
    (deleteOk : ZDelete → Bool) : List ZDelete :=
  attemptDeletes deleteOk (plannedPurchaseDeletes poId billId)

/-- The configuration switches read by the sale workflow. -/
structure SaleFlags where
  auto_create_invoices : Bool
  auto_create_shipments : Bool

/-- Outcomes of the external calls the sale workflow makes, in order
(`_find_or_create_customer`; the `_ensure_item_exists_in_zoho` loop, which
has no per-item isolation here so a single failure aborts it; the three
creation POSTs), plus the delete outcomes for compensation. -/
structure SaleEnv where
  customer : Except String String
  ensureItems : Except String Unit
  createSO : Except String String
  createInvoice : Except String String
  createShipment : Except String String
  deleteOk : ZDelete → Bool

/-- The fields of the sale workflow result the claims concern, plus the
observable trace of compensation DELETE calls. -/
structure SaleOutcome where
  success : Bool := false
  sales_order_id : Option String := Option.none
  invoice_id : Option String := Option.none
  shipment_id : Option String := Option.none
  errors : List String := []
  deletes : List ZDelete := []
deriving Repr

/-- Steps 4-5 of the sale workflow (invoice conversion already resolved into
`invId`): optional shipment creation; on failure, cleanup of whatever was
created. -/
def saleAfterInvoice (flags : SaleFlags) (env : SaleEnv) (soId : String)
    (invId : Option String) : SaleOutcome :=
  if flags.auto_create_shipments then
    match env.createShipment with
    | .error e =>
      { sales_order_id := some soId, invoice_id := invId,
        errors := [s!"Sales workflow failed: {e}"],
        deletes := cleanupFailedSale soId invId Option.none env.deleteOk }
    | .ok shipId =>
      -- `_calculate_cogs_from_shipment` catches all exceptions internally
      { success := true, sales_order_id := some soId, invoice_id := invId,
        shipment_id := some shipId }
  else
    { success := true, sales_order_id := some soId, invoice_id := invId }

/-- `ZohoClient._process_sale_with_proper_workflow` (lines 334-448):
customer → items → Sales Order → (optional) Invoice → (optional) Shipment;
any exception appends `"Sales workflow failed: <e>"` and, when a sales order
exists, triggers `_cleanup_failed_sale` with the ids created so far. -/
def saleWorkflow (flags : SaleFlags) (env : SaleEnv) : SaleOutcome :=
  match env.customer with
  | .error e => { errors := [s!"Sales workflow failed: {e}"] }
  | .ok _ =>
    match env.ensureItems with
    | .error e => { errors := [s!"Sales workflow failed: {e}"] }
    | .ok _ =>
      match env.createSO with
      | .error e => { errors := [s!"Sales workflow failed: {e}"] }
      | .ok soId =>
        if flags.auto_create_invoices then
          match env.createInvoice with
          | .error e =>
            { sales_order_id := some soId,
              errors := [s!"Sales workflow failed: {e}"],
              deletes := cleanupFailedSale soId Option.none Option.none env.deleteOk }
          | .ok invId => saleAfterInvoice flags env soId (some invId)
        else saleAfterInvoice flags env soId Option.none

/-- The configuration switches read by the purchase workflow. -/
structure PurchaseFlags where
  auto_receive_po : Bool
  auto_create_bills : Bool

/-- Outcomes of the external calls the purchase workflow makes, in order. -/
structure PurchaseEnv where
  vendor : Except String String
  ensureItems : Except String Unit
  createPO : Except String String
  receive : Except String Unit
  convertBill : Except String String
  deleteOk : ZDelete → Bool

/-- The fields of the purchase workflow result the claims concern, plus the
observable trace of compensation DELETE calls. -/
structure PurchaseOutcome where
  success : Bool := false
  purchase_order_id : Option String := Option.none
  bill_id : Option String := Option.none
  errors : List String := []
  deletes : List ZDelete := []
deriving Repr

/-- Step 5 of the purchase workflow: optional bill conversion. -/
def purchaseAfterReceive (flags : PurchaseFlags) (env : PurchaseEnv)
    (poId : String) : PurchaseOutcome :=
  if flags.auto_create_bills then
    match env.convertBill with
    | .error e =>
      { purchase_order_id := some poId,
        errors := [s!"Purchase workflow failed: {e}"],
        deletes := cleanupFailedPurchase poId Option.none env.deleteOk }
    | .ok billId =>
      { success := true, purchase_order_id := some poId, bill_id := some billId }
  else
    { success := true, purchase_order_id := some poId }

/-- `ZohoClient._process_purchase_with_proper_workflow` (lines 247-332):
vendor → items → Purchase Order → (optional) receive → (optional) Bill;
any exception appends `"Purchase workflow failed: <e>"` and, when a
purchase order exists, triggers `_cleanup_failed_purchase`. -/
def purchaseWorkflow (flags : PurchaseFlags) (env : PurchaseEnv) :
    PurchaseOutcome :=
  match env.vendor with
  | .error e => { errors := [s!"Purchase workflow failed: {e}"] }
  | .ok _ =>
    match env.ensureItems with
    | .error e => { errors := [s!"Purchase workflow failed: {e}"] }
    | .ok _ =>
      match env.createPO with
      | .error e => { errors := [s!"Purchase workflow failed: {e}"] }
      | .ok poId =>
        if flags.auto_receive_po then
          match env.receive with
          | .error e =>
            { purchase_order_id := some poId,
              errors := [s!"Purchase workflow failed: {e}"],
              deletes := cleanupFailedPurchase poId Option.none env.deleteOk }
          | .ok _ => purchaseAfterReceive flags env poId
        else purchaseAfterReceive flags env poId

/-- The artifacts a sale workflow run created, in creation order. -/
def saleCreatedArtifacts (r : SaleOutcome) : List ZDelete :=
  (r.sales_order_id.map fun i => ((Artifact.salesOrder, i) : ZDelete)).toList ++
  (r.invoice_id.map fun i => ((Artifact.invoice, i) : ZDelete)).toList ++
  (r.shipment_id.map fun i => ((Artifact.shipment, i) : ZDelete)).toList

/-- The artifacts a purchase workflow run created, in creation order. -/
def purchaseCreatedArtifacts (r : PurchaseOutcome) : List ZDelete :=
  (r.purchase_order_id.map fun i => ((Artifact.purchaseOrder, i) : ZDelete)).toList ++
  (r.bill_id.map fun i => ((Artifact.bill, i) : ZDelete)).toList

/-! ## SKU Resolver (`airtable_client.py`,
`_find_or_create_inventory_item` / `_generate_sku`) -/

/-- `item.get(key)` truthiness for an optional string field (absent or empty
both falsy). -/
def optStrTruthy (o : Option String) : Bool := (o.getD "") ≠ ""

/-- The item fields the resolver reads.  `name` models
`item.get('name', '')`. -/
structure InvItem where
  name : String
  sku : Option String := Option.none
  upc : Option String := Option.none
  product_id : Option String := Option.none

/-- An `InventoryStock` record as the client reads/writes it. -/
structure InvRecord where
  record_id : Nat
  sku : String
  item_name : String
  quantity : ℤ
deriving DecidableEq, Repr

/-- Airtable `filterByFormula` string `=` comparison, which is
case-insensitive (whitespace-sensitive). -/
def aeq (a b : String) : Bool := pyLower a == pyLower b

/-- `_find_inventory_by_sku` / `_find_inventory_by_upc` (both filter on the
`{SKU}` field — UPC is stored as the SKU); Airtable returns records in
creation order and the client takes `records[0]`. -/
def findInventoryBySku (store : List InvRecord) (sku : String) :
    Option InvRecord :=
  store.find? fun r => aeq r.sku sku

/-- `_find_inventory_by_name` (filters on `{Item Name}`). -/
def findInventoryByName (store : List InvRecord) (name : String) :
    Option InvRecord :=
  store.find? fun r => aeq r.item_name name

/-- The `clean_name` of `_generate_sku` (line 388): uppercase, keep only
alphanumerics, spaces and hyphens. -/
def skuCleanName (name : String) : String :=
  String.mk ((pyUpper name).toList.filter fun c => c.isAlphanum || c == ' ' || c == '-')

/-- `clean_name.split()`: split on whitespace runs (after `skuCleanName`
only spaces remain), dropping empty pieces. -/
def skuWords (cn : String) : List String :=
  ((cn.toList.splitOn ' ').map String.mk).filter (· ≠ "")

/-- `AirtableClient._generate_sku` (lines 370-401).  `md5hex` models
`hashlib.md5(name.encode()).hexdigest()`.  (`item.get('name', 'UNKNOWN')`:
the absent-name default is unreachable through the resolver, which bails out
earlier on blank names, so `name` is read directly.) -/
def generateSku (md5hex : String → String) (item : InvItem) : String :=
  if optStrTruthy item.sku then pyUpper (item.sku.getD "")
  else if optStrTruthy item.upc then "UPC-" ++ item.upc.getD ""
  else if optStrTruthy item.product_id then "ID-" ++ item.product_id.getD ""
  else
    let cn := skuCleanName item.name
    let ws := skuWords cn
    let pfx := if 1 < ws.length
      then String.join ((ws.take 4).map fun w => pyTake w 1)
      else pyTake cn 4
    "AUTO-" ++ pfx ++ "-" ++ pyUpper (pyTake (md5hex item.name) 6)

/-- `_create_new_inventory_item` (lines 329-368): creates the record with the
generated SKU, the *unstripped* item name, and quantity 0; the fresh Airtable
record id is modelled by the store length. -/
def createNewInventoryItem (md5hex : String → String) (item : InvItem)
    (store : List InvRecord) : InvRecord × List InvRecord :=
  let r : InvRecord :=
    { record_id := store.length, sku := generateSku md5hex item,
      item_name := item.name, quantity := 0 }
  (r, store ++ [r])

/-- `AirtableClient._find_or_create_inventory_item` (lines 195-237):
blank (stripped) name → `None`; otherwise lookup by explicit SKU, then by
UPC (against the SKU field), then by exact (case-insensitive) name match on
the *stripped* name, then create.  Returns the resolved record and the
resulting store. -/
def findOrCreateInventoryItem (md5hex : String → String) (item : InvItem)
    (store : List InvRecord) : Option (InvRecord × List InvRecord) :=
  let item_name := pyStrip item.name
  if item_name = "" then Option.none
  else
    match (if optStrTruthy item.sku
      then findInventoryBySku store (item.sku.getD "") else Option.none) with
    | some r => some (r, store)
    | Option.none =>
      match (if optStrTruthy item.upc
        then findInventoryBySku store (item.upc.getD "") else Option.none) with
      | some r => some (r, store)
      | Option.none =>
        match findInventoryByName store item_name with
        | some r => some (r, store)
        | Option.none => some (createNewInventoryItem md5hex item store)

/-! ## Accounting-backend availability (`zoho_client.py` `is_available`,
`main.py` `_process_complete_transaction`) -/

/-- Outcome of one HTTP request: success, a network-class exception
(`ConnectionError`/`Timeout`/`OSError`), or an HTTP-status error. -/
inductive ReqOutcome where
  | ok | netError | httpError
deriving DecidableEq, Repr

/-- The availability state of the Zoho client (`self.is_available`).  After
`__init__`, nothing in the source ever sets it back to `True`. -/
structure ZohoState where
  is_available : Bool
deriving DecidableEq, Repr

/-- `_make_api_request` (lines 113-158) availability behavior: when the
backend is unavailable it raises immediately (no HTTP call); a network-class
exception sets `is_available = False` and re-raises; HTTP/other errors
re-raise leaving availability unchanged. -/
def makeApiRequest (st : ZohoState) (outcome : ReqOutcome) :
    ZohoState × Except String Unit :=
  if !st.is_available then (st, .error "Zoho API is not available")
  else
    match outcome with
    | .ok => (st, .ok ())
    | .netError => ({ is_available := false }, .error "network")
    | .httpError => (st, .error "http")

/-- A Zoho workflow as a sequence of API requests: the first raising request
aborts the workflow (the exception propagates to the workflow's handler);
returns the availability state afterwards. -/
def runRequests (st : ZohoState) : List ReqOutcome → ZohoState
  | [] => st
  | r :: rest =>
    match makeApiRequest st r with
    | (st1, .ok _) => runRequests st1 rest
    | (st1, .error _) => st1

/-- What one complete transaction does to the outside world, as reported by
`_process_complete_transaction` (main.py lines 263-338). -/
structure StepReport where
  airtable_saved : Bool
  zoho_attempted : Bool
  zoho_skipped_flagged : Bool
deriving DecidableEq, Repr

/-- Parameters of one complete transaction: whether the Airtable (ledger)
step succeeds, and the request outcomes its Zoho workflow would hit. -/
structure TxnIO where
  airtableOk : Bool
  zohoRequests : List ReqOutcome

/-- `_process_complete_transaction` (main.py lines 263-338): Airtable first;
on success, the Zoho workflow runs only `if self.zoho.is_available`,
otherwise the sync is skipped and flagged with a "Zoho Unavailable"
warning notification. -/
def processCompleteTransaction (st : ZohoState) (io : TxnIO) :
    ZohoState × StepReport :=
  if !io.airtableOk then
    (st, { airtable_saved := false, zoho_attempted := false,
           zoho_skipped_flagged := false })
  else if st.is_available then
    (runRequests st io.zohoRequests,
     { airtable_saved := true, zoho_attempted := true,
       zoho_skipped_flagged := false })
  else
    (st, { airtable_saved := true, zoho_attempted := false,
           zoho_skipped_flagged := true })

/-- A run: complete transactions processed sequentially, threading the
availability state. -/
def runSession (st : ZohoState) : List TxnIO → List StepReport
  | [] => []
  | io :: rest =>
    let (st1, rep) := processCompleteTransaction st io
    rep :: runSession st1 rest

/-! ## Review-queue resolution (`main.py`, `_process_pending_reviews`) -/

/-- The methods defined on `AirtableClient` (`airtable_client.py`); the
`hasattr(self.airtable, 'get_record')` guard in `_process_pending_reviews`
checks membership here. -/
def airtableClientMethods : List String :=
  ["process_transaction", "_process_item_inventory",
   "_find_or_create_inventory_item", "_find_inventory_by_sku",
   "_find_inventory_by_upc", "_find_inventory_by_name",
   "_create_new_inventory_item", "_generate_sku",
   "_update_inventory_quantity", "create_purchase", "create_sale",
   "get_records_ready_for_zoho_sync", "mark_record_synced_to_zoho",
   "_generate_review_notes"]

/-- The fields of the `ParseResult` dataclass (`openai_parser.py`
lines 66-87); its generated `__init__` rejects any other keyword. -/
def parseResultFields : List String :=
  ["status", "data", "errors", "warnings", "missing_fields",
   "incomplete_items", "confidence_score", "parse_time", "requires_review",
   "completeness", "completeness_details"]

/-- The keyword arguments `_process_pending_reviews` passes to
`ParseResult(...)` (main.py lines 633-640). -/
def pendingReviewParseResultKwargs : List String :=
  ["status", "completeness", "data", "confidence", "missing_fields", "errors"]

/-- A Python dataclass call succeeds iff every keyword names a field
(otherwise `__init__` raises `TypeError`). -/
def dataclassCallOk (fields kwargs : List String) : Bool :=
  kwargs.all fields.contains

/-- The record fetched for a pending review (only `requires_review` is
consulted by the guard). -/
structure FetchedRecord where
  requires_review : Bool

/-- The body `_process_pending_reviews` would run for one review (main.py
lines 620-643) if the `hasattr` guard passed: when the fetched record no
longer requires review it builds
`ParseResult(status=…, completeness=…, data=…, confidence=1.0,
missing_fields=[], errors=[])` and calls `_process_complete_transaction`.
Returns whether posting was invoked, or the exception message. -/
def resolveReviewAttempt (rec : FetchedRecord) : Except String Bool :=
  if rec.requires_review then .ok false
  else if dataclassCallOk parseResultFields pendingReviewParseResultKwargs then
    .ok true
  else
    .error "TypeError: ParseResult got an unexpected keyword argument"

/-- `_process_pending_reviews` (main.py lines 608-653): for each pending
review, the body runs only under `hasattr(self.airtable, 'get_record')`;
exceptions are caught and logged per review; resolved reviews are removed.
Returns the surviving pending map and the record ids actually posted. -/
def processPendingReviews (reviews : List (String × Unit))
    (fetch : String → Option FetchedRecord) :
    List (String × Unit) × List String :=
  let resolved := reviews.filterMap fun p =>
    if airtableClientMethods.contains "get_record" then
      match fetch p.1 with
      | some rec =>
        match resolveReviewAttempt rec with
        | .ok true => some p.1
        | _ => Option.none
      | Option.none => Option.none
    else Option.none
  (reviews.filter fun p => !resolved.contains p.1, resolved)

lemma pget_pset_ne (d : PyDict) (k k' : String) (v : PyVal) (h : k' ≠ k) :
    pget (pset d k v) k' = pget d k' := by
  induction d with
  | nil =>
    have : (k == k') = false := by simp [Ne.symm h]
    simp [pset, pget, List.find?, this]
  | cons p rest ih =>
    by_cases hp : p.1 == k
    · have hpk : p.1 = k := by simpa using hp
      have : (p.1 == k') = false := by simp [hpk, Ne.symm h]
      simp [pset, pget, List.find?, hp, this]
    · simp only [pset, hp, if_false]
      by_cases hp' : p.1 == k'
      · simp [pget, List.find?, hp']
      · simp only [pget, List.find?, hp'] at ih ⊢
        exact ih

lemma pgetD_pset_ne (d : PyDict) (k k' : String) (v : PyVal) (h : k' ≠ k) :
    pgetD (pset d k v) k' = pgetD d k' := by
  simp [pgetD, pget_pset_ne d k k' v h]

/-- `_validate_date` touches only the `date` and `date_original` keys. -/
lemma validateDate_pget_other (parseDate : String → Option String)
    (data : PyDict) (k : String) (h1 : k ≠ "date") (h2 : k ≠ "date_original") :
    pgetD (validateDate parseDate data).1 k = pgetD data k := by
  unfold validateDate
  cases hd : pgetD data "date" <;> simp
  rename_i s
  by_cases hs : s = "" <;> simp [hs]
  by_cases hiso : isoDateMatch s <;> simp [hiso]
  cases hp : parseDate s <;>
    simp [pgetD_pset_ne _ _ _ _ h1, pgetD_pset_ne _ _ _ _ h2]

lemma validateDate_missing_nil (parseDate : String → Option String)
    (data : PyDict) (h : dateParseable parseDate data = true) :
    (validateDate parseDate data).2.2 = [] := by
  unfold dateParseable at h
  unfold validateDate
  cases hd : pgetD data "date" <;> simp [hd] at h ⊢
  rename_i s
  by_cases hs : s = "" <;> simp [hs] at h ⊢
  rcases h with h | h
  · simp [h]
  · cases hp : parseDate s <;> simp [hp] at h ⊢ <;> simp [isoDateMatch] <;> split <;> simp

lemma scanItems_missing_nil_iff (pf : String) (i : Nat) (l : List PyVal) :
    (scanItems pf i l).missing = [] ↔ (scanItems pf i l).all_complete = true := by
  induction l generalizing i with
  | nil => simp [scanItems]
  | cons item rest ih =>
    simp only [scanItems]
    cases hn : (pgetD (asDict item) "name").truthy <;>
      cases hq : checkQuantity (pgetD (asDict item) "quantity") <;>
        cases hp : checkPrice (pgetD (asDict item) pf) <;>
          simp [hn, hq, hp, ih]

/-- **C1 (counterexample).** The claim states `completeness = Complete` iff
`missing_fields = []`.  On a purchase whose date is present but neither
`YYYY-MM-DD` nor parseable by `dateutil`, `_validate_completeness` sets
`has_date = True` *before* `_validate_date` nulls the date and appends
`'date'` to `missing_fields`; the gate then returns `Complete` with a
non-empty missing-field list. -/
theorem c1_counterexample :
    (validateCompleteness (fun _ => Option.none)
        [("type", .str "purchase"), ("date", .str "not-a-date"),
         ("vendor_name", .str "Acme"), ("taxes", .num 5),
         ("items", .list [.dict [("name", .str "Widget"),
           ("quantity", .num 2), ("unit_price", .num 3),
           ("sku", .str "W1")]])]).completeness = DataCompleteness.complete ∧
    (validateCompleteness (fun _ => Option.none)
        [("type", .str "purchase"), ("date", .str "not-a-date"),
         ("vendor_name", .str "Acme"), ("taxes", .num 5),
         ("items", .list [.dict [("name", .str "Widget"),
           ("quantity", .num 2), ("unit_price", .num 3),
           ("sku", .str "W1")]])]).missing_fields = ["date"] := by
  exact ⟨rfl, rfl⟩

/-- **C1 (amended).** For every extracted purchase or sale transaction whose
date field, when present, is a valid `YYYY-MM-DD` string or one `dateutil`
can parse, the Completeness Gate returns `Complete` iff the resulting
`missing_fields` list is empty (header and all line items).  The proviso is
forced by `c1_counterexample`: a present but unparseable date yields
`Complete` together with `missing_fields = ['date']`, because the
`has_date` tracker flag is set before `_validate_date` nulls the date. -/
theorem c1_amended_complete_iff_no_missing (parseDate : String → Option String)
    (data : PyDict) (hwf : wfGateInput data = true)
    (hdate : dateParseable parseDate data = true) :
    (validateCompleteness parseDate data).completeness = DataCompleteness.complete ↔
    (validateCompleteness parseDate data).missing_fields = [] := by
  unfold wfGateInput at hwf
  simp only [Bool.and_eq_true] at hwf
  obtain ⟨⟨⟨htt, hdt⟩, hit⟩, ham⟩ := hwf
  have horb : (isStr (pgetD data "type") "purchase" ||
      isStr (pgetD data "type") "sale") = true := htt
  rw [Bool.or_eq_true] at htt
  have htruthy : (pgetD data "type").truthy = true := by
    cases h : pgetD data "type" <;> simp [h, isStr] at htt ⊢ <;>
      rcases htt with h1 | h1 <;> subst h1 <;> decide
  have hsame : ∀ k : String, k ≠ "date" → k ≠ "date_original" →
      pgetD (if (pgetD data "date").truthy = true
        then (validateDate parseDate data).1 else data) k = pgetD data k := by
    intro k h1 h2
    split
    · exact validateDate_pget_other parseDate data k h1 h2
    · rfl
  have hv := hsame "vendor_name" (by decide) (by decide)
  have hc := hsame "channel" (by decide) (by decide)
  have hx := hsame "taxes" (by decide) (by decide)
  have hi := hsame "items" (by decide) (by decide)
  unfold validateCompleteness
  simp only [htruthy, horb, Bool.not_true, Bool.false_and, Bool.false_eq_true,
    if_false, ite_false, hv, hc, hx, hi]
  generalize hits : (match pgetD data "items" with
    | PyVal.list l => l
    | _ => []) = its
  have hdnil := validateDate_missing_nil parseDate data hdate
  by_cases hP : isStr (pgetD data "type") "purchase" = true <;>
    cases hD : (pgetD data "date").truthy <;>
      [skip; cases hV : (pgetD data "vendor_name").truthy;
       skip; cases hV : (pgetD data "channel").truthy] <;>
    simp [hP, hD, hdnil] <;>
    cases hT : isNone (pgetD data "taxes") <;>
    cases hE : its.isEmpty <;>
    simp [hT, hE, scanItems_missing_nil_iff] <;>
    cases hA : (scanItems (if isStr (pgetD data "type") "purchase" = true
      then "unit_price" else "sale_price") 0 its).all_complete <;>
    simp_all [scanItems_missing_nil_iff]

/-- Witness for `c1_amended_complete_iff_no_missing` at a concrete complete
purchase with a well-formed date. -/
theorem c1_amended_witness :
    wfGateInput [("type", .str "purchase"), ("date", .str "2024-01-05"),
      ("vendor_name", .str "Acme"), ("taxes", .num 5),
      ("items", .list [.dict [("name", .str "Widget"), ("quantity", .num 2),
        ("unit_price", .num 3), ("sku", .str "W1")]])] = true ∧
    dateParseable (fun _ => Option.none)
      [("type", .str "purchase"), ("date", .str "2024-01-05"),
       ("vendor_name", .str "Acme"), ("taxes", .num 5),
       ("items", .list [.dict [("name", .str "Widget"), ("quantity", .num 2),
         ("unit_price", .num 3), ("sku", .str "W1")]])] = true ∧
    ((validateCompleteness (fun _ => Option.none)
        [("type", .str "purchase"), ("date", .str "2024-01-05"),
         ("vendor_name", .str "Acme"), ("taxes", .num 5),
         ("items", .list [.dict [("name", .str "Widget"), ("quantity", .num 2),
           ("unit_price", .num 3), ("sku", .str "W1")]])]).completeness =
        DataCompleteness.complete ↔
      (validateCompleteness (fun _ => Option.none)
        [("type", .str "purchase"), ("date", .str "2024-01-05"),
         ("vendor_name", .str "Acme"), ("taxes", .num 5),
         ("items", .list [.dict [("name", .str "Widget"), ("quantity", .num 2),
           ("unit_price", .num 3), ("sku", .str "W1")]])]).missing_fields = []) :=
  ⟨rfl, rfl, c1_amended_complete_iff_no_missing _ _ rfl rfl⟩

/-- **C2.** For every inventory item and every sequence of applied quantity
deltas (positive for a purchase, negative for a sale — `quantityDelta`), the
quantity written by the Ledger Updater is `newQuantity = max 0 (previous +
delta)`, hence non-negative; starting from any non-negative stored quantity
(new records start at 0), the stored `quantity_on_hand` stays `≥ 0` after any
sequence of applied deltas, even when a sale quantity exceeds stock. -/
theorem c2_quantity_floor :
    (∀ q : ℤ, quantityDelta "purchase" q = q ∧ quantityDelta "sale" q = -q) ∧
    (∀ previous delta : ℤ, 0 ≤ newQuantity previous delta) ∧
    (∀ (init : ℤ) (deltas : List ℤ), 0 ≤ init → 0 ≤ applyDeltas init deltas) := by
  refine ⟨fun q => ⟨rfl, rfl⟩, fun p d => le_max_left 0 _, ?_⟩
  intro init deltas h
  induction deltas generalizing init with
  | nil => exact h
  | cons d rest ih => exact ih (newQuantity init d) (le_max_left 0 _)

/-- Witness for `c2_quantity_floor`: an oversell (stock 0, +5, −9, +2)
stays non-negative. -/
theorem c2_witness :
    quantityDelta "sale" 9 = -9 ∧ 0 ≤ newQuantity 3 (-9) ∧
    0 ≤ applyDeltas 0 [5, -9, 2] :=
  ⟨(c2_quantity_floor.1 9).2, c2_quantity_floor.2.1 3 (-9),
   c2_quantity_floor.2.2 0 [5, -9, 2] (by decide)⟩

lemma attemptDeletes_all_ok (ok : ZDelete → Bool) (l : List ZDelete)
    (h : ∀ d ∈ l, ok d = true) : attemptDeletes ok l = l := by
  induction l with
  | nil => rfl
  | cons d rest ih =>
    have hd := h d (List.mem_cons_self d rest)
    simp [attemptDeletes, hd, ih fun x hx => h x (List.mem_cons_of_mem d hx)]

lemma attemptDeletes_take (ok : ZDelete → Bool) (l : List ZDelete) :
    ∃ n, attemptDeletes ok l = l.take n := by
  induction l with
  | nil => exact ⟨0, rfl⟩
  | cons d rest ih =>
    by_cases h : ok d = true
    · obtain ⟨n, hn⟩ := ih
      exact ⟨n + 1, by simp [attemptDeletes, h, hn]⟩
    · exact ⟨1, by simp [attemptDeletes, h]⟩

lemma attemptDeletes_ne_nil (ok : ZDelete → Bool) (d : ZDelete) (l : List ZDelete) :
    attemptDeletes ok (d :: l) ≠ [] := by
  by_cases h : ok d = true <;> simp [attemptDeletes, h]

lemma attemptDeletes_stop (ok : ZDelete → Bool) (l : List ZDelete)
    (h : attemptDeletes ok l ≠ l) :
    ∃ d, (attemptDeletes ok l).getLast? = some d ∧ ok d = false := by
  induction l with
  | nil => simp [attemptDeletes] at h
  | cons d rest ih =>
    by_cases hd : ok d = true
    · have hne : attemptDeletes ok rest ≠ rest := by
        intro he; exact h (by simp [attemptDeletes, hd, he])
      obtain ⟨x, hx, hxo⟩ := ih hne
      refine ⟨x, ?_, hxo⟩
      cases hr : rest with
      | nil => simp [attemptDeletes, hr] at hne
      | cons r rs =>
        rw [hr] at hx
        simp only [attemptDeletes, hd, if_true] at hx ⊢
        by_cases hrr : ok r = true <;> simp [hrr] at hx ⊢ <;>
          simp [List.getLast?_cons_cons, hx]
    · exact ⟨d, by simp [attemptDeletes, hd], by simpa using hd⟩

/-- **C4 (counterexample).** The claim says a failing delete does not stop
the deletion attempts on the remaining created artifacts.  In the source the
three DELETE calls of `_cleanup_failed_sale` sit in a *single* try/except, so
when all three artifacts exist and the shipment delete raises, only the
shipment delete is attempted: the invoice and the sales order — both created
— receive zero deletion attempts. -/
theorem c4_counterexample :
    cleanupFailedSale "so1" (some "inv1") (some "ship1")
        (fun d => !(d.1 == Artifact.shipment)) = [(Artifact.shipment, "ship1")] ∧
    (Artifact.invoice, "inv1") ∉ cleanupFailedSale "so1" (some "inv1") (some "ship1")
        (fun d => !(d.1 == Artifact.shipment)) ∧
    (Artifact.salesOrder, "so1") ∉ cleanupFailedSale "so1" (some "inv1") (some "ship1")
        (fun d => !(d.1 == Artifact.shipment)) := by
  refine ⟨rfl, ?_, ?_⟩ <;> decide

/-- **C4 (amended).** During compensation the delete calls are issued in
strict reverse-creation order, one pass, no retry: the attempted sequence is
always a prefix of the planned reverse-creation list (so each created
artifact is attempted at most once); when every delete succeeds, each created
artifact is attempted exactly once; and when the attempted sequence stops
short, its last attempted delete is one that failed — a failing delete is
caught by the single surrounding except and *stops* the attempts on the
remaining artifacts (this last point is what the counterexample forces the
original claim to concede). -/
theorem c4_amended (ok : ZDelete → Bool) (soId poId : String)
    (invId shipId billId : Option String) :
    ((∃ n, cleanupFailedSale soId invId shipId ok =
        (plannedSaleDeletes soId invId shipId).take n) ∧
     ((∀ d ∈ plannedSaleDeletes soId invId shipId, ok d = true) →
        cleanupFailedSale soId invId shipId ok = plannedSaleDeletes soId invId shipId) ∧
     (cleanupFailedSale soId invId shipId ok ≠ plannedSaleDeletes soId invId shipId →
        ∃ d, (cleanupFailedSale soId invId shipId ok).getLast? = some d ∧ ok d = false)) ∧
    ((∃ n, cleanupFailedPurchase poId billId ok =
        (plannedPurchaseDeletes poId billId).take n) ∧
     ((∀ d ∈ plannedPurchaseDeletes poId billId, ok d = true) →
        cleanupFailedPurchase poId billId ok = plannedPurchaseDeletes poId billId) ∧
     (cleanupFailedPurchase poId billId ok ≠ plannedPurchaseDeletes poId billId →
        ∃ d, (cleanupFailedPurchase poId billId ok).getLast? = some d ∧ ok d = false)) :=
  ⟨⟨attemptDeletes_take ok _, attemptDeletes_all_ok ok _, attemptDeletes_stop ok _⟩,
   ⟨attemptDeletes_take ok _, attemptDeletes_all_ok ok _, attemptDeletes_stop ok _⟩⟩

/-- Witness for `c4_amended` with all deletes succeeding on a fully-created
sale. -/
theorem c4_amended_witness :
    cleanupFailedSale "so1" (some "inv1") (some "ship1") (fun _ => true) =
      plannedSaleDeletes "so1" (some "inv1") (some "ship1") :=
  (c4_amended (fun _ => true) "so1" "po1" (some "inv1") (some "ship1")
    Option.none).1.2.1 (by intro d _; rfl)

/-- **C3.** If a posting workflow (purchase or sale path) fails by exception
after creating N accounting artifacts, compensation attempts deletion of
exactly those N artifacts in reverse creation order (shipment before invoice
before sales order; bill before purchase order) — stated here under
delete calls that themselves succeed — and the returned result has
`success = false` with the originating error message recorded in its errors
list (formatted `"Sales/Purchase workflow failed: <e>"` where `<e>` is the
error of the step that failed). -/
theorem c3_compensation_reverse_order (sflags : SaleFlags) (senv : SaleEnv)
    (pflags : PurchaseFlags) (penv : PurchaseEnv)
    (hds : ∀ d, senv.deleteOk d = true) (hdp : ∀ d, penv.deleteOk d = true) :
    ((saleWorkflow sflags senv).success = false →
      (saleWorkflow sflags senv).deletes =
        (saleCreatedArtifacts (saleWorkflow sflags senv)).reverse ∧
      ∃ e, (saleWorkflow sflags senv).errors = [s!"Sales workflow failed: {e}"] ∧
        (senv.customer = .error e ∨ senv.ensureItems = .error e ∨
         senv.createSO = .error e ∨
         (sflags.auto_create_invoices = true ∧ senv.createInvoice = .error e) ∨
         (sflags.auto_create_shipments = true ∧ senv.createShipment = .error e))) ∧
    ((purchaseWorkflow pflags penv).success = false →
      (purchaseWorkflow pflags penv).deletes =
        (purchaseCreatedArtifacts (purchaseWorkflow pflags penv)).reverse ∧
      ∃ e, (purchaseWorkflow pflags penv).errors = [s!"Purchase workflow failed: {e}"] ∧
        (penv.vendor = .error e ∨ penv.ensureItems = .error e ∨
         penv.createPO = .error e ∨
         (pflags.auto_receive_po = true ∧ penv.receive = .error e) ∨
         (pflags.auto_create_bills = true ∧ penv.convertBill = .error e))) := by
  constructor
  · intro hfail
    rcases senv with ⟨cust, ens, so, inv, ship, delok⟩
    rcases sflags with ⟨fi, fs⟩
    simp only at hds hfail ⊢
    rcases cust with e | cid
    · simp [saleWorkflow, saleCreatedArtifacts]
      exact ⟨e, rfl, by simp⟩
    rcases ens with e | u
    · simp [saleWorkflow, saleCreatedArtifacts]
      exact ⟨e, rfl, by simp⟩
    rcases so with e | soId
    · simp [saleWorkflow, saleCreatedArtifacts]
      exact ⟨e, rfl, by simp⟩
    cases fi
    · -- no invoice step
      cases fs
      · -- no shipment step: success, contradiction
        simp [saleWorkflow, saleAfterInvoice] at hfail
      · rcases ship with e | shipId
        · simp [saleWorkflow, saleAfterInvoice, saleCreatedArtifacts,
            cleanupFailedSale, plannedSaleDeletes,
            attemptDeletes_all_ok _ _ (fun d _ => hds d)]
        · simp [saleWorkflow, saleAfterInvoice] at hfail
    · rcases inv with e | invId
      · simp [saleWorkflow, saleCreatedArtifacts, cleanupFailedSale,
          plannedSaleDeletes, attemptDeletes_all_ok _ _ (fun d _ => hds d)]
        exact ⟨e, rfl, by simp⟩
      · cases fs
        · simp [saleWorkflow, saleAfterInvoice] at hfail
        · rcases ship with e | shipId
          · simp [saleWorkflow, saleAfterInvoice, saleCreatedArtifacts,
              cleanupFailedSale, plannedSaleDeletes,
              attemptDeletes_all_ok _ _ (fun d _ => hds d)]
          · simp [saleWorkflow, saleAfterInvoice] at hfail
  · intro hfail
    rcases penv with ⟨ven, ens, po, rcv, bill, delok⟩
    rcases pflags with ⟨fr, fb⟩
    simp only at hdp hfail ⊢
    rcases ven with e | vid
    · simp [purchaseWorkflow, purchaseCreatedArtifacts]
      exact ⟨e, rfl, by simp⟩
    rcases ens with e | u
    · simp [purchaseWorkflow, purchaseCreatedArtifacts]
      exact ⟨e, rfl, by simp⟩
    rcases po with e | poId
    · simp [purchaseWorkflow, purchaseCreatedArtifacts]
      exact ⟨e, rfl, by simp⟩
    cases fr
    · cases fb
      · simp [purchaseWorkflow, purchaseAfterReceive] at hfail
      · rcases bill with e | billId
        · simp [purchaseWorkflow, purchaseAfterReceive, purchaseCreatedArtifacts,
            cleanupFailedPurchase, plannedPurchaseDeletes,
            attemptDeletes_all_ok _ _ (fun d _ => hdp d)]
        · simp [purchaseWorkflow, purchaseAfterReceive] at hfail
    · rcases rcv with e | u
      · simp [purchaseWorkflow, purchaseCreatedArtifacts, cleanupFailedPurchase,
          plannedPurchaseDeletes, attemptDeletes_all_ok _ _ (fun d _ => hdp d)]
        exact ⟨e, rfl, by simp⟩
      · cases fb
        · simp [purchaseWorkflow, purchaseAfterReceive] at hfail
        · rcases bill with e | billId
          · simp [purchaseWorkflow, purchaseAfterReceive, purchaseCreatedArtifacts,
              cleanupFailedPurchase, plannedPurchaseDeletes,
              attemptDeletes_all_ok _ _ (fun d _ => hdp d)]
          · simp [purchaseWorkflow, purchaseAfterReceive] at hfail

/-- Witness for `c3_compensation_reverse_order`: a sale whose invoice
conversion fails after the sales order was created — compensation deletes
exactly the sales order. -/
theorem c3_witness :
    (saleWorkflow ⟨true, true⟩
      ⟨.ok "c1", .ok (), .ok "so1", .error "boom", .ok "sh1", fun _ => true⟩).deletes =
    (saleCreatedArtifacts (saleWorkflow ⟨true, true⟩
      ⟨.ok "c1", .ok (), .ok "so1", .error "boom", .ok "sh1", fun _ => true⟩)).reverse :=
  ((c3_compensation_reverse_order ⟨true, true⟩
      ⟨.ok "c1", .ok (), .ok "so1", .error "boom", .ok "sh1", fun _ => true⟩
      ⟨true, true⟩
      ⟨.ok "v1", .ok (), .ok "po1", .ok (), .error "bad", fun _ => true⟩
      (fun _ => rfl) (fun _ => rfl)).1 rfl).1

/-- Spec-side description of the successful subset: the items whose
resolution succeeded, each with its SKU filled in, in order. -/
def successfulSubset2 : List PyDict → List ItemOutcome → List PyDict
  | [], _ => []
  | _, [] => []
  | item :: its, oc :: ocs =>
    match oc with
    | .ok sku _ => pset item "sku" (.str sku) :: successfulSubset2 its ocs
    | _ => successfulSubset2 its ocs

/-- Spec-side description of the items whose resolution failed (their
`name` fields, in order). -/
def failedNames : List PyDict → List ItemOutcome → List PyVal
  | [], _ => []
  | _, [] => []
  | item :: its, oc :: ocs =>
    match oc with
    | .ok _ _ => failedNames its ocs
    | _ => pgetD item "name" :: failedNames its ocs

lemma ptLoop_fst (items : List PyDict) (outcomes : List ItemOutcome) :
    (ptLoop items outcomes).1 = successfulSubset2 items outcomes := by
  induction items generalizing outcomes with
  | nil => cases outcomes <;> simp [ptLoop, successfulSubset2]
  | cons item its ih =>
    cases outcomes with
    | nil => simp [ptLoop, successfulSubset2]
    | cons oc ocs => cases oc <;> simp [ptLoop, successfulSubset2, ih]

lemma ptLoop_len (items : List PyDict) (outcomes : List ItemOutcome)
    (hlen : outcomes.length = items.length) :
    (ptLoop items outcomes).2.1.length + (ptLoop items outcomes).2.2.1.length
      = items.length := by
  induction items generalizing outcomes with
  | nil => simp [ptLoop]
  | cons item its ih =>
    cases outcomes with
    | nil => simp at hlen
    | cons oc ocs =>
      have hlen' : ocs.length = its.length := by simpa using hlen
      have hrec := ih ocs hlen'
      rcases hpt : ptLoop its ocs with ⟨ps, pe, fe, ws⟩
      rw [hpt] at hrec
      cases oc <;> simp [ptLoop, hpt] <;> simp at hrec <;> omega

lemma ptLoop_failed (items : List PyDict) (outcomes : List ItemOutcome) :
    (ptLoop items outcomes).2.2.1.map (fun f => f.name)
      = failedNames items outcomes := by
  induction items generalizing outcomes with
  | nil => cases outcomes <;> simp [ptLoop, failedNames]
  | cons item its ih =>
    cases outcomes with
    | nil => simp [ptLoop, failedNames]
    | cons oc ocs => cases oc <;> simp [ptLoop, failedNames, ih]

lemma successfulSubset2_nil_iff (items : List PyDict) (outcomes : List ItemOutcome)
    (hlen : outcomes.length = items.length) :
    successfulSubset2 items outcomes = [] ↔ ∀ oc ∈ outcomes, oc.isOk = false := by
  induction items generalizing outcomes with
  | nil =>
    cases outcomes with
    | nil => simp [successfulSubset2]
    | cons a b => simp at hlen
  | cons item its ih =>
    cases outcomes with
    | nil => simp at hlen
    | cons oc ocs =>
      have hlen' : ocs.length = its.length := by simpa using hlen
      cases oc with
      | ok sku rid => simp [successfulSubset2, ItemOutcome.isOk]
      | failed errs => simp [successfulSubset2, ItemOutcome.isOk, ih ocs hlen']
      | exn m => simp [successfulSubset2, ItemOutcome.isOk, ih ocs hlen']

/-- **C6.** In `process_transaction` (where line-item resolution happens;
the Zoho workflow receives only already-resolved items), a failure to resolve
one line item is recorded in `items_failed` without aborting its siblings
(every item receives exactly one attempt: the processed/failed entries
partition the items, and the failed names are exactly the failing items);
the workflow aborts (success = false, no transaction record, no
record-creation call) iff zero items resolve; when at least one item
resolves, the record-creation call is made with exactly the successful
subset. -/
theorem c6_item_failure_isolation (items : List PyDict) (outcomes : List ItemOutcome)
    (createOutcome : Except String String)
    (hlen : outcomes.length = items.length) :
    ((processTransaction items outcomes createOutcome).items_processed.length +
      (processTransaction items outcomes createOutcome).items_failed.length
        = items.length) ∧
    ((processTransaction items outcomes createOutcome).items_failed.map
        (fun f => f.name) = failedNames items outcomes) ∧
    ((∀ oc ∈ outcomes, oc.isOk = false) →
      (processTransaction items outcomes createOutcome).success = false ∧
      (processTransaction items outcomes createOutcome).transaction_record_id
        = Option.none ∧
      (processTransaction items outcomes createOutcome).create_call = Option.none) ∧
    ((∃ oc ∈ outcomes, oc.isOk = true) →
      (processTransaction items outcomes createOutcome).create_call =
        some (successfulSubset2 items outcomes)) := by
  have h1 := ptLoop_fst items outcomes
  have h2 := ptLoop_len items outcomes hlen
  have h3 := ptLoop_failed items outcomes
  rcases hpt : ptLoop items outcomes with ⟨ps, pe, fe, ws⟩
  rw [hpt] at h1 h2 h3
  simp only at h1 h2 h3
  unfold processTransaction
  rw [hpt]
  refine ⟨?_, ?_, ?_, ?_⟩
  · by_cases he : ps.isEmpty = true
    · simp [he, h2]
    · cases createOutcome <;> simp [he, h2]
  · by_cases he : ps.isEmpty = true
    · simp [he, h3]
    · cases createOutcome <;> simp [he, h3]
  · intro hall
    have hempty : ps = [] := by
      rw [h1, successfulSubset2_nil_iff items outcomes hlen]; exact hall
    simp [hempty]
  · rintro ⟨oc, hoc, hok⟩
    have hne : ¬ ps.isEmpty = true := by
      intro hemp
      rw [List.isEmpty_iff] at hemp
      have hsub : successfulSubset2 items outcomes = [] := by rw [← h1, hemp]
      rw [successfulSubset2_nil_iff items outcomes hlen] at hsub
      have := hsub oc hoc
      rw [hok] at this
      exact absurd this (by simp)
    cases createOutcome <;> dsimp only [] <;> rw [if_neg hne] <;> simp [h1]

/-- Witness for `c6_item_failure_isolation`: two items, the first resolving
and the second failing — the record-creation call receives exactly the
successful subset, and the counts partition the items. -/
theorem c6_witness :
    (processTransaction [[("name", PyVal.str "A")], [("name", PyVal.str "B")]]
        [ItemOutcome.ok "S1" "r1", ItemOutcome.failed ["err"]]
        (Except.ok "rec9")).create_call =
      some (successfulSubset2 [[("name", PyVal.str "A")], [("name", PyVal.str "B")]]
        [ItemOutcome.ok "S1" "r1", ItemOutcome.failed ["err"]]) ∧
    (processTransaction [[("name", PyVal.str "A")], [("name", PyVal.str "B")]]
        [ItemOutcome.ok "S1" "r1", ItemOutcome.failed ["err"]]
        (Except.ok "rec9")).items_processed.length +
      (processTransaction [[("name", PyVal.str "A")], [("name", PyVal.str "B")]]
        [ItemOutcome.ok "S1" "r1", ItemOutcome.failed ["err"]]
        (Except.ok "rec9")).items_failed.length = 2 :=
  ⟨(c6_item_failure_isolation _ _ _ rfl).2.2.2
      ⟨ItemOutcome.ok "S1" "r1", by simp, rfl⟩,
   (c6_item_failure_isolation _ _ _ rfl).1⟩

/-- **C8.** After a network-class error (timeout, connection refused, DNS
failure) on any accounting-backend API call, the backend is marked
unavailable (`is_available = False`); nothing re-enables it before restart,
so from any unavailable state: every workflow request raises without an HTTP
call and leaves the state unavailable, and every subsequently processed
complete transaction performs its ledger (Airtable) step only, with the
accounting posting not attempted and explicitly flagged by the
"Zoho Unavailable" warning.  The second conjunct shows a run whose requests
hit a network error ends unavailable regardless of the starting state. -/
theorem c8_backend_disabled_after_network_error (st stAvail : ZohoState) (rs pre post : List ReqOutcome)
    (ios : List TxnIO) (hpre : ∀ r ∈ pre, r = ReqOutcome.ok)
    (h : st.is_available = false) :
    (makeApiRequest stAvail ReqOutcome.netError).1.is_available = false ∧
    (runRequests stAvail (pre ++ ReqOutcome.netError :: post)).is_available = false ∧
    (runRequests st rs).is_available = false ∧
    (runSession st ios).all (fun rep => !rep.zoho_attempted &&
      (!rep.airtable_saved || rep.zoho_skipped_flagged)) = true := by
  refine ⟨?_, ?_, ?_, ?_⟩
  · cases ha : stAvail.is_available <;> simp [makeApiRequest, ha]
  · induction pre generalizing stAvail with
    | nil => cases ha : stAvail.is_available <;> simp [runRequests, makeApiRequest, ha]
    | cons r rest ih =>
      have hr : r = ReqOutcome.ok := hpre r (List.mem_cons_self r rest)
      subst hr
      cases ha : stAvail.is_available
      · simp [runRequests, makeApiRequest, ha]
      · simp only [List.cons_append, runRequests, makeApiRequest, ha,
          Bool.not_true, if_false, ite_false]
        exact ih stAvail (fun x hx => hpre x (List.mem_cons_of_mem _ hx))
  · cases rs with
    | nil => simpa [runRequests]
    | cons r rest => simp [runRequests, makeApiRequest, h]
  · induction ios with
    | nil => simp [runSession]
    | cons io rest ih =>
      cases hio : io.airtableOk <;>
        simp [runSession, processCompleteTransaction, hio, h, ih]

/-- Witness for `c8_backend_disabled_after_network_error` on a concrete
disabled session with one saved-to-ledger-only transaction. -/
theorem c8_witness :
    (makeApiRequest ⟨true⟩ ReqOutcome.netError).1.is_available = false ∧
    (runRequests ⟨true⟩
      ([ReqOutcome.ok] ++ ReqOutcome.netError :: [ReqOutcome.ok])).is_available
        = false ∧
    (runRequests ⟨false⟩ [ReqOutcome.ok]).is_available = false ∧
    (runSession ⟨false⟩ [⟨true, [ReqOutcome.ok]⟩, ⟨false, []⟩]).all
      (fun rep => !rep.zoho_attempted &&
        (!rep.airtable_saved || rep.zoho_skipped_flagged)) = true :=
  c8_backend_disabled_after_network_error ⟨false⟩ ⟨true⟩ [ReqOutcome.ok]
    [ReqOutcome.ok] [ReqOutcome.ok] [⟨true, [ReqOutcome.ok]⟩, ⟨false, []⟩]
    (by decide) rfl

/-- **C5 (code bug).** The claim says resolution re-fetches the record,
re-runs the Completeness Gate, and re-enters the Posting Workflow.  In the
source, `_process_pending_reviews` guards the whole body with
`hasattr(self.airtable, 'get_record')`, but `AirtableClient` defines no
`get_record` method, so the body never runs: every pending review survives
every pass and `_process_complete_transaction` is never invoked (first and
second conjuncts).  Moreover, even if the guard passed, the body would build
`ParseResult(..., confidence=1.0, ...)` — `confidence` is not a field of the
dataclass (the field is `confidence_score`) — raising `TypeError` before any
posting (third and fourth conjuncts); no Completeness Gate re-run appears on
this path at all. -/
theorem c5_resolution_never_reenters_workflow :
    (∀ (reviews : List (String × Unit)) (fetch : String → Option FetchedRecord),
      processPendingReviews reviews fetch = (reviews, [])) ∧
    airtableClientMethods.contains "get_record" = false ∧
    resolveReviewAttempt { requires_review := false } =
      .error "TypeError: ParseResult got an unexpected keyword argument" ∧
    dataclassCallOk parseResultFields pendingReviewParseResultKwargs = false := by
  refine ⟨?_, rfl, rfl, rfl⟩
  intro reviews fetch
  unfold processPendingReviews
  have hg : airtableClientMethods.contains "get_record" = false := rfl
  simp only [hg, Bool.false_eq_true, if_false, ite_false, List.filterMap_nil]
  have : (reviews.filterMap fun p => (Option.none : Option String)) = [] := by
    simp
  rw [this]
  simp [List.filter_eq_self]

lemma calcConfidence_bounds (itemsLen numWarnings : Nat) (t : Tracker)
    (c : DataCompleteness) :
    0 ≤ calcConfidence itemsLen t numWarnings c ∧
    calcConfidence itemsLen t numWarnings c ≤ 1 := by
  unfold calcConfidence
  constructor
  · exact le_max_left 0 _
  · exact max_le (by norm_num) (min_le_left 1 _)

/-- **C9 (counterexample).** The claim says a small bonus is added when the
result has zero warnings.  On an incomplete purchase (missing date) with one
complete identified item and zero warnings, the code returns confidence
`1 - 0.2 = 0.8`: no bonus is applied, because the source's bonus condition is
`completeness == COMPLETE`, not zero warnings — the claim's formula (weights
as in the code, bonus on zero warnings) would give `0.9`.  The same input
shows the incomplete-items deduction (up to `0.3`) can exceed every header
weight, against the claim's parenthetical. -/
theorem c9_counterexample :
    (validateCompleteness (fun _ => Option.none)
      [("type", .str "purchase"),
       ("vendor_name", .str "Acme"), ("taxes", .num 5),
       ("items", .list [.dict [("name", .str "Widget"), ("quantity", .num 2),
         ("unit_price", .num 3), ("sku", .str "W1")]])]).warnings = [] ∧
    (validateCompleteness (fun _ => Option.none)
      [("type", .str "purchase"),
       ("vendor_name", .str "Acme"), ("taxes", .num 5),
       ("items", .list [.dict [("name", .str "Widget"), ("quantity", .num 2),
         ("unit_price", .num 3), ("sku", .str "W1")]])]).confidence_score = 4/5 ∧
    c9ClaimFormula 1
      { has_date := false, has_vendor_or_channel := true,
        has_all_items := true, has_taxes := true, items_incomplete := 0 } 0
      = 9/10 ∧
    ((4 : ℚ)/5) ≠ 9/10 := by
  refine ⟨rfl, ?_, ?_, by norm_num⟩
  · show calcConfidence 1
      { has_date := false, has_vendor_or_channel := true,
        has_all_items := true, has_taxes := true, items_incomplete := 0 } 0
      DataCompleteness.incomplete = 4/5
    have hne : ¬ (DataCompleteness.incomplete = DataCompleteness.complete) := by simp
    norm_num [calcConfidence, min_def, max_def, hne]
  · norm_num [c9ClaimFormula, confDeductions, min_def, max_def]

/-- **C9 (amended).** For every parsed transaction the computed confidence
score is an additive weighted deduction — 0.2 for a missing date, 0.2 for a
missing vendor/channel, 0.15 for missing taxes, 0.3 scaled by the fraction of
incomplete items (which can exceed a header weight when most items are
incomplete), 0.02 per warning — with floor 0 and ceiling 1; the small bonus
(0.1, capped at 1) is added when the completeness verdict is `Complete`, not
when the warning count is zero. -/
theorem c9_amended_confidence :
    (∀ (itemsLen numWarnings : Nat) (t : Tracker) (c : DataCompleteness),
      calcConfidence itemsLen t numWarnings c
        = c9AmendedFormula itemsLen t numWarnings c ∧
      0 ≤ calcConfidence itemsLen t numWarnings c ∧
      calcConfidence itemsLen t numWarnings c ≤ 1) ∧
    (∀ (parseDate : String → Option String) (data : PyDict),
      0 ≤ (validateCompleteness parseDate data).confidence_score ∧
      (validateCompleteness parseDate data).confidence_score ≤ 1) := by
  constructor
  · intro itemsLen numWarnings t c
    refine ⟨?_, calcConfidence_bounds itemsLen numWarnings t c⟩
    unfold calcConfidence c9AmendedFormula confDeductions
    rcases t with ⟨hd, hv, ha, hx, n⟩
    by_cases hc : c = DataCompleteness.complete
    · simp only [hc, if_true, ite_true]
      cases hd <;> cases hv <;> cases ha <;> cases hx <;>
        simp only [Bool.false_eq_true, if_true, if_false, ite_true, ite_false] <;>
        · congr 1
          congr 1
          congr 1
          ring
    · simp only [hc, if_false, ite_false]
      cases hd <;> cases hv <;> cases ha <;> cases hx <;>
        simp only [Bool.false_eq_true, if_true, if_false, ite_true, ite_false] <;>
        · congr 1
          congr 1
          ring
  · intro parseDate data
    by_cases h1 : (!(pgetD data "type").truthy) = true
    · unfold validateCompleteness
      simp only [h1, if_true, ite_true]
      constructor <;> norm_num
    · by_cases h2 : ((!(isStr (pgetD data "type") "purchase" ||
          isStr (pgetD data "type") "sale")) && isStr (pgetD data "type") "unknown") = true
      · unfold validateCompleteness
        simp only [h1, h2, Bool.false_eq_true, if_true, if_false, ite_true, ite_false]
        constructor <;> norm_num
      · unfold validateCompleteness
        simp only [h1, h2, Bool.false_eq_true, if_true, if_false, ite_true, ite_false]
        exact calcConfidence_bounds _ _ _ _

/-- **C10 (counterexample).** The claim says no key of a cleaned dictionary
maps to the empty string.  A whitespace-only string value passes the
`value != ""` guard, is stripped to `""`, is not a placeholder, and is kept:
`{'a': ' '}` cleans to `{'a': ''}`. -/
theorem c10_counterexample :
    cleanParsedData [("a", PyVal.str " ")] = [("a", PyVal.str "")] := by
  have h1 : pyStrip " " = "" := by decide
  have h2 : pyLower "" ∉ placeholderStrings := by decide
  simp [cleanParsedData, cleanListItems, h1, h2]

mutual

theorem cleanEntriesOK_clean (d : PyDict) : CleanEntriesOK (cleanParsedData d) :=
  match d with
  | [] => by simp [cleanParsedData, CleanEntriesOK]
  | (k, v) :: rest =>
    have htl : CleanEntriesOK (cleanParsedData rest) := cleanEntriesOK_clean rest
    match v with
    | .none => by simpa [cleanParsedData] using htl
    | .bool b => by
      simp [cleanParsedData, CleanEntriesOK, CleanEntryOK]
      exact htl
    | .num q => by
      by_cases hq : (0:ℚ) ≤ q
      · simp [cleanParsedData, CleanEntriesOK, CleanEntryOK, hq]
        exact htl
      · simp [cleanParsedData, hq]
        exact htl
    | .str t => by
      by_cases h1 : t = ""
      · simp [cleanParsedData, h1]
        exact htl
      · by_cases h2 : pyLower (pyStrip t) ∈ placeholderStrings
        · simp [cleanParsedData, h1, h2]
          exact htl
        · simp [cleanParsedData, CleanEntriesOK, CleanEntryOK, h1, h2]
          exact htl
    | .list l =>
      have hl : CleanElemsOK (cleanListItems l) := cleanElemsOK_clean l
      by
        by_cases he : (cleanListItems l).isEmpty
        · simp [cleanParsedData, he]
          exact htl
        · simp only [cleanParsedData, he, Bool.false_eq_true, if_false, ite_false,
            List.singleton_append]
          simp [CleanEntriesOK, CleanEntryOK]
          refine ⟨⟨?_, hl⟩, htl⟩
          intro hnil
          rw [hnil] at he
          simp at he
    | .dict d2 => by
      simp [cleanParsedData, CleanEntriesOK, CleanEntryOK]
      exact htl

theorem cleanElemsOK_clean (l : List PyVal) : CleanElemsOK (cleanListItems l) :=
  match l with
  | [] => by simp [cleanListItems, CleanElemsOK]
  | item :: rest =>
    have htl : CleanElemsOK (cleanListItems rest) := cleanElemsOK_clean rest
    match item with
    | .dict d =>
      have hd : CleanEntriesOK (cleanParsedData d) := cleanEntriesOK_clean d
      by
        by_cases he : (cleanParsedData d).isEmpty
        · simp [cleanListItems, he]
          exact htl
        · simp only [cleanListItems, he, Bool.false_eq_true, if_false, ite_false,
            List.singleton_append]
          simp [CleanElemsOK, CleanElemOK]
          refine ⟨⟨?_, hd⟩, htl⟩
          intro hnil
          rw [hnil] at he
          simp at he
    | .none => by simpa [cleanListItems] using htl
    | .str t => by
      by_cases h1 : t = ""
      · simp [cleanListItems, h1]
        exact htl
      · simp [cleanListItems, CleanElemsOK, CleanElemOK, h1]
        exact htl
    | .bool b => by
      simp [cleanListItems, CleanElemsOK, CleanElemOK]
      exact htl
    | .num q => by
      simp [cleanListItems, CleanElemsOK, CleanElemOK]
      exact htl
    | .list l2 => by
      simp [cleanListItems, CleanElemsOK, CleanElemOK]
      exact htl

end

lemma pget_cons (k1 : String) (v1 : PyVal) (rest : PyDict) (k : String) :
    pget ((k1, v1) :: rest) k = if k1 == k then some v1 else pget rest k := by
  by_cases h : (k1 == k) = true <;> simp [pget, List.find?, h]

lemma pget_eq_none_of_not_mem (d : PyDict) (k : String)
    (h : k ∉ d.map Prod.fst) : pget d k = Option.none := by
  induction d with
  | nil => simp [pget]
  | cons p rest ih =>
    obtain ⟨k1, v1⟩ := p
    simp only [List.map_cons, List.mem_cons] at h
    push_neg at h
    have hk : (k1 == k) = false := by simp [Ne.symm h.1]
    rw [pget_cons, hk]
    simpa using ih h.2

lemma pget_clean_none (d : PyDict) (k : String) (h : pget d k = Option.none) :
    pget (cleanParsedData d) k = Option.none := by
  induction d with
  | nil => simp [cleanParsedData, pget]
  | cons p rest ih =>
    obtain ⟨k1, v1⟩ := p
    rw [pget_cons] at h
    have hk1 : (k1 == k) = false := by
      by_contra hc
      simp only [Bool.not_eq_false] at hc
      rw [hc] at h
      simp at h
    rw [hk1] at h
    simp only [Bool.false_eq_true, if_false, ite_false] at h
    have ihr := ih h
    cases v1 <;> simp only [cleanParsedData] <;>
      (try split) <;> (try split) <;> simp [pget_cons, hk1, ihr]

lemma clean_drops_negative_quantity (item : PyDict) (q : ℚ)
    (hnodup : (item.map Prod.fst).Nodup)
    (hq : pget item "quantity" = some (.num q)) (hneg : q < 0) :
    pget (cleanParsedData item) "quantity" = Option.none := by
  induction item with
  | nil => simp [pget] at hq
  | cons p rest ih =>
    obtain ⟨k1, v1⟩ := p
    simp only [List.map_cons, List.nodup_cons] at hnodup
    rw [pget_cons] at hq
    by_cases hk : (k1 == "quantity") = true
    · rw [hk] at hq
      simp only [if_true, ite_true, Option.some.injEq] at hq
      subst hq
      have hnle : ¬ (0:ℚ) ≤ q := not_le.mpr hneg
      have hrest : pget rest "quantity" = Option.none := by
        apply pget_eq_none_of_not_mem
        have : k1 = "quantity" := by simpa using hk
        rw [← this]
        exact hnodup.1
      simp only [cleanParsedData, hnle, Bool.false_eq_true, if_false, ite_false,
        List.nil_append]
      exact pget_clean_none rest "quantity" hrest
    · have hkf : (k1 == "quantity") = false := by simpa using hk
      rw [hkf] at hq
      simp only [Bool.false_eq_true, if_false, ite_false] at hq
      have ihr := ih hnodup.2 hq
      cases v1 <;> simp only [cleanParsedData] <;>
        (try split) <;> (try split) <;> simp [pget_cons, hkf, ihr]

lemma scan_missing_of_no_quantity (pf : String) (item : PyDict)
    (h : pget item "quantity" = Option.none) :
    "item_1_quantity" ∈ (scanItems pf 0 [PyVal.dict item]).missing := by
  have hq : checkQuantity (pgetD item "quantity") = false := by
    simp [pgetD, h, checkQuantity]
  simp [scanItems, asDict, hq]
  exact Or.inr (Or.inl (by decide))

/-- **C10 (amended).** For every dictionary returned by
`_clean_parsed_data`: no key maps to `None`, a placeholder string
(`'null'/'none'/'n/a'/'unknown'`, case-insensitively), or a negative
int/float; the same holds recursively for every dictionary element of a list
value (list values are also non-empty, their elements are not `None` and not
the exact empty string, and nested cleaned dicts are non-empty).  Unlike the
original claim, a key *may* map to the empty string (whitespace-only input,
see the counterexample).  Consequently a negative `quantity` in an item dict
(unique keys, as in Python) is silently dropped by cleaning, and the
Completeness Gate then reports `item_1_quantity` among the missing fields. -/
theorem c10_amended :
    (∀ d : PyDict, CleanEntriesOK (cleanParsedData d)) ∧
    (∀ (item : PyDict) (q : ℚ) (pf : String),
      (item.map Prod.fst).Nodup →
      pget item "quantity" = some (.num q) → q < 0 →
      pget (cleanParsedData item) "quantity" = Option.none ∧
      "item_1_quantity" ∈
        (scanItems pf 0 [PyVal.dict (cleanParsedData item)]).missing) := by
  refine ⟨cleanEntriesOK_clean, ?_⟩
  intro item q pf hnodup hq hneg
  have hdrop := clean_drops_negative_quantity item q hnodup hq hneg
  exact ⟨hdrop, scan_missing_of_no_quantity pf _ hdrop⟩

theorem c10_amended_witness :
    pget (cleanParsedData
      [("name", PyVal.str "W"), ("quantity", PyVal.num (-3)),
       ("sale_price", PyVal.num 2)]) "quantity" = Option.none ∧
    "item_1_quantity" ∈ (scanItems "sale_price" 0
      [PyVal.dict (cleanParsedData
        [("name", PyVal.str "W"), ("quantity", PyVal.num (-3)),
         ("sale_price", PyVal.num 2)])]).missing :=
  c10_amended.2
    [("name", PyVal.str "W"), ("quantity", PyVal.num (-3)),
     ("sale_price", PyVal.num 2)] (-3) "sale_price"
    (by decide) rfl (by norm_num)

end InvRec

namespace InvRec

/-- C7 counterexample: the claim as stated fails for an item whose name has
leading whitespace.  `_find_or_create_inventory_item` looks up by the
*stripped* name but creates the record with the *unstripped* name, so a
second resolution of the same input misses the name match and creates a
second record: the store grows from 1 to 2 records and the second call
returns the record with id 1, not the id-0 record created first. -/
theorem c7_counterexample :
    (findOrCreateInventoryItem (fun _ => "abcdef") { name := " Foo" } []).map
      (fun p => p.2.length) = some 1 ∧
    ((findOrCreateInventoryItem (fun _ => "abcdef") { name := " Foo" } []).bind
      (fun p => findOrCreateInventoryItem (fun _ => "abcdef") { name := " Foo" } p.2)).map
      (fun p => (p.2.length, p.1.record_id)) = some (2, 1) := by
  exact ⟨rfl, rfl⟩

lemma find?_append_none {α} (p : α → Bool) (l1 l2 : List α)
    (h : l1.find? p = Option.none) : (l1 ++ l2).find? p = l2.find? p := by
  induction l1 with
  | nil => rfl
  | cons a t ih =>
    by_cases ha : p a = true
    · rw [List.find?_cons_of_pos _ ha] at h
      simp at h
    · rw [List.find?_cons_of_neg _ ha] at h
      simpa [List.find?_cons_of_neg _ ha] using ih h

lemma aeq_self (s : String) : aeq s s = true := by
  simp [aeq]

lemma c7_create_case (md5hex : String → String) (item : InvItem)
    (store : List InvRecord) (hname : pyStrip item.name = item.name)
    (hne : item.name ≠ "")
    (hS : optStrTruthy item.sku = true →
      findInventoryBySku store (item.sku.getD "") = Option.none)
    (hU : optStrTruthy item.upc = true →
      findInventoryBySku store (item.upc.getD "") = Option.none)
    (hN : findInventoryByName store item.name = Option.none) :
    ∃ r store1, findOrCreateInventoryItem md5hex item store = some (r, store1) ∧
      findOrCreateInventoryItem md5hex item store1 = some (r, store1) := by
  set new := (createNewInventoryItem md5hex item store).1 with hdef
  have hnew : createNewInventoryItem md5hex item store = (new, store ++ [new]) := rfl
  have hnm : new.item_name = item.name := rfl
  refine ⟨new, store ++ [new], ?_, ?_⟩
  · -- first call: all lookups miss, so the item is created
    by_cases tS : optStrTruthy item.sku = true <;>
      by_cases tU : optStrTruthy item.upc = true <;>
      simp [findOrCreateInventoryItem, hname, hne, tS, tU, hS, hU, hN, hnew]
  · -- second call: any hit on the extended store must be the new record
    have e1 : ∀ q, findInventoryBySku store q = Option.none →
        findInventoryBySku (store ++ [new]) q =
          (if aeq new.sku q then some new else Option.none) := by
      intro q hq
      unfold findInventoryBySku at hq ⊢
      rw [find?_append_none _ _ _ hq]
      by_cases h : aeq new.sku q = true <;> simp [List.find?, h]
    have e3 : findInventoryByName (store ++ [new]) item.name = some new := by
      unfold findInventoryByName at hN ⊢
      rw [find?_append_none _ _ _ hN]
      simp [List.find?, hnm, aeq_self]
    by_cases tS : optStrTruthy item.sku = true
    · have h1 := e1 _ (hS tS)
      by_cases hA : aeq new.sku (item.sku.getD "") = true
      · simp [findOrCreateInventoryItem, hname, hne, tS, h1, hA]
      · by_cases tU : optStrTruthy item.upc = true
        · have h2 := e1 _ (hU tU)
          by_cases hB : aeq new.sku (item.upc.getD "") = true
          · simp [findOrCreateInventoryItem, hname, hne, tS, tU, h1, h2, hA, hB]
          · simp [findOrCreateInventoryItem, hname, hne, tS, tU, h1, h2, hA, hB, e3]
        · simp [findOrCreateInventoryItem, hname, hne, tS, tU, h1, hA, e3]
    · by_cases tU : optStrTruthy item.upc = true
      · have h2 := e1 _ (hU tU)
        by_cases hB : aeq new.sku (item.upc.getD "") = true
        · simp [findOrCreateInventoryItem, hname, hne, tS, tU, h2, hB]
        · simp [findOrCreateInventoryItem, hname, hne, tS, tU, h2, hB, e3]
      · simp [findOrCreateInventoryItem, hname, hne, tS, tU, e3]

/-- C7: SKU resolution is idempotent in the amended sense: for every item
whose name is already stripped and non-empty, resolving it twice against the
same store never creates two records — the second call returns exactly the
record and store produced by the first call (it finds the record the first
call created or found, via explicit SKU, UPC, or exact name match).  The
unamended claim fails for names with surrounding whitespace, see the
counterexample. -/
theorem c7_amended (md5hex : String → String) (item : InvItem)
    (store : List InvRecord) (hname : pyStrip item.name = item.name)
    (hne : item.name ≠ "") :
    ∃ r store1, findOrCreateInventoryItem md5hex item store = some (r, store1) ∧
      findOrCreateInventoryItem md5hex item store1 = some (r, store1) := by
  by_cases tS : optStrTruthy item.sku = true
  · cases hS : findInventoryBySku store (item.sku.getD "") with
    | some r =>
      exact ⟨r, store, by simp [findOrCreateInventoryItem, hname, hne, tS, hS],
        by simp [findOrCreateInventoryItem, hname, hne, tS, hS]⟩
    | none =>
      by_cases tU : optStrTruthy item.upc = true
      · cases hU : findInventoryBySku store (item.upc.getD "") with
        | some r =>
          exact ⟨r, store,
            by simp [findOrCreateInventoryItem, hname, hne, tS, hS, tU, hU],
            by simp [findOrCreateInventoryItem, hname, hne, tS, hS, tU, hU]⟩
        | none =>
          cases hN : findInventoryByName store item.name with
          | some r =>
            exact ⟨r, store,
              by simp [findOrCreateInventoryItem, hname, hne, tS, hS, tU, hU, hN],
              by simp [findOrCreateInventoryItem, hname, hne, tS, hS, tU, hU, hN]⟩
          | none =>
            exact c7_create_case md5hex item store hname hne (fun _ => hS)
              (fun _ => hU) hN
      · cases hN : findInventoryByName store item.name with
        | some r =>
          exact ⟨r, store,
            by simp [findOrCreateInventoryItem, hname, hne, tS, hS, tU, hN],
            by simp [findOrCreateInventoryItem, hname, hne, tS, hS, tU, hN]⟩
        | none =>
          exact c7_create_case md5hex item store hname hne (fun _ => hS)
            (fun h => absurd h tU) hN
  · by_cases tU : optStrTruthy item.upc = true
    · cases hU : findInventoryBySku store (item.upc.getD "") with
      | some r =>
        exact ⟨r, store,
          by simp [findOrCreateInventoryItem, hname, hne, tS, tU, hU],
          by simp [findOrCreateInventoryItem, hname, hne, tS, tU, hU]⟩
      | none =>
        cases hN : findInventoryByName store item.name with
        | some r =>
          exact ⟨r, store,
            by simp [findOrCreateInventoryItem, hname, hne, tS, tU, hU, hN],
            by simp [findOrCreateInventoryItem, hname, hne, tS, tU, hU, hN]⟩
        | none =>
          exact c7_create_case md5hex item store hname hne
            (fun h => absurd h tS) (fun _ => hU) hN
    · cases hN : findInventoryByName store item.name with
      | some r =>
        exact ⟨r, store,
          by simp [findOrCreateInventoryItem, hname, hne, tS, tU, hN],
          by simp [findOrCreateInventoryItem, hname, hne, tS, tU, hN]⟩
      | none =>
        exact c7_create_case md5hex item store hname hne
          (fun h => absurd h tS) (fun h => absurd h tU) hN

theorem c7_amended_witness :
    ∃ r store1,
      findOrCreateInventoryItem (fun _ => "abcdef")
        { name := "Foo", upc := some "12345", sku := Option.none } [] =
          some (r, store1) ∧
      findOrCreateInventoryItem (fun _ => "abcdef")
        { name := "Foo", upc := some "12345", sku := Option.none } store1 =
          some (r, store1) :=
  c7_amended (fun _ => "abcdef")
    { name := "Foo", upc := some "12345", sku := Option.none } []
    (by decide) (by decide)

end InvRec
